import Mathlib

/-!
Shallow embedding of the input-capture and serial-streaming core of the
CaptureKVM repository (`src/InputCapture.cpp` together with the class headers
`InputCapture.hpp` and `SerialStreamer.hpp`), and theorems settling the frozen
claims about the Link Streamer queue discipline, TLV framing, and the Capture
Translator keyboard/mouse state machines.

Modelling conventions: bytes are `Nat` values (kept below 256 where relevant),
machine integers are `Int`, the bounded `std::deque` queues are Lean lists with
the list head as the oldest (front) element, and OS calls that merely perform
side effects (logging, `SetCursorPos`, cursor clipping, `PostMessage`) are
reflected as explicit outputs or dropped when they do not feed back into the
modelled state.
-/

namespace CaptureKVM

/-- Wire frame bytes (sync, type, length, payload): one
`std::vector<std::uint8_t>` entry of a packet queue. -/
abbrev Packet := List Nat

/-- Constant kMaxQueuedPackets from `InputCapture.cpp` (serial streamer part):
the cross-queue cap on the total number of queued frames. -/
def kMaxQueuedPackets : Nat := 1024

/-- Constant kFrameSync0 (0xD5). -/
def kFrameSync0 : Nat := 0xD5

/-- Constant kFrameSync1 (0xAA). -/
def kFrameSync1 : Nat := 0xAA

/-- Constant kDefaultBaudRate from `SerialStreamer.hpp`
(`static constexpr unsigned int kDefaultBaudRate = 6000000;`). -/
def kDefaultBaudRate : Nat := 6000000

/-- Enum `SerialStreamer::PacketType`. -/
inductive PacketType where
  | Keyboard
  | Mouse
  | Microphone
  | MouseAbsolute
deriving Repr, DecidableEq

/-- The numeric value of a `PacketType` (the enum's underlying byte). -/
def PacketType.code : PacketType → Nat
  | .Keyboard => 0x01
  | .Mouse => 0x02
  | .Microphone => 0x03
  | .MouseAbsolute => 0x04

/-- The `SerialStreamer` state that the claims depend on: the three frame
queues, the cross-queue counter `totalQueued_`, the `running_` flag, the
`portDirty_` flag, whether `portHandle_` is a valid (open) handle, and the
configured baud rate. -/
structure StreamerState where
  mouseQueue : List Packet
  keyboardQueue : List Packet
  microphoneQueue : List Packet
  totalQueued : Nat
  running : Bool
  portDirty : Bool
  portOpen : Bool
  baudRate : Nat
deriving Repr, DecidableEq

/-- State of a freshly constructed `SerialStreamer` (member initializers of
`SerialStreamer.hpp`): empty queues, not running, port closed and clean,
baud rate `kDefaultBaudRate`. -/
def initStreamerState : StreamerState :=
  { mouseQueue := []
    keyboardQueue := []
    microphoneQueue := []
    totalQueued := 0
    running := false
    portDirty := false
    portOpen := false
    baudRate := kDefaultBaudRate }

/-- Total number of frames actually held across the three queues. -/
def queuedFrames (s : StreamerState) : Nat :=
  s.mouseQueue.length + s.keyboardQueue.length + s.microphoneQueue.length

/-- Embedding of `SerialStreamer::buildPacket`: sync bytes, type byte, 2-byte
big-endian length (capped at 0xFFFF), then the (capped) payload. -/
def buildPacket (type : PacketType) (payload : List Nat) : Packet :=
  let cappedSize := min payload.length 0xFFFF
  [kFrameSync0, kFrameSync1, type.code, (cappedSize >>> 8) % 256, cappedSize % 256]
    ++ payload.take cappedSize

/-- Embedding of `SerialStreamer::trimQueuesLocked`: while the counter is over
`kMaxQueuedPackets`, drop the oldest frame from the microphone queue, else from
the keyboard queue, else from the mouse queue, else stop (the source's
`dropFrom` decrements `totalQueued_` only when it is positive, which for `Nat`
subtraction is the same as `- 1`). -/
def trimQueuesLocked (s : StreamerState) : StreamerState :=
  if _h : kMaxQueuedPackets < s.totalQueued then
    match s.microphoneQueue, s.keyboardQueue, s.mouseQueue with
    | _ :: restMic, _, _ =>
        trimQueuesLocked { s with microphoneQueue := restMic, totalQueued := s.totalQueued - 1 }
    | [], _ :: restKb, _ =>
        trimQueuesLocked { s with keyboardQueue := restKb, totalQueued := s.totalQueued - 1 }
    | [], [], _ :: restMouse =>
        trimQueuesLocked { s with mouseQueue := restMouse, totalQueued := s.totalQueued - 1 }
    | [], [], [] => s
  else s
termination_by s.totalQueued
decreasing_by all_goals omega

/-- Embedding of `SerialStreamer::enqueuePacket`: no-op when not running;
otherwise build the frame, push it to the back of the queue selected by the
packet type (mouse and absolute-mouse share the mouse queue), bump the
counter, and trim. -/
def enqueuePacket (s : StreamerState) (type : PacketType) (payload : List Nat) : StreamerState :=
  if ¬s.running then s
  else
    let packet := buildPacket type payload
    let pushed : StreamerState :=
      match type with
      | .Mouse | .MouseAbsolute =>
          { s with mouseQueue := s.mouseQueue ++ [packet], totalQueued := s.totalQueued + 1 }
      | .Keyboard =>
          { s with keyboardQueue := s.keyboardQueue ++ [packet], totalQueued := s.totalQueued + 1 }
      | .Microphone =>
          { s with microphoneQueue := s.microphoneQueue ++ [packet], totalQueued := s.totalQueued + 1 }
    trimQueuesLocked pushed

/-- Embedding of `SerialStreamer::publishKeyboardReport` (the debug trace is a
pure logging call and is dropped). -/
def publishKeyboardReport (s : StreamerState) (report : List Nat) : StreamerState :=
  if ¬s.running then s else enqueuePacket s .Keyboard report

/-- Embedding of `SerialStreamer::publishMouseReport`. -/
def publishMouseReport (s : StreamerState) (report : List Nat) : StreamerState :=
  if ¬s.running then s else enqueuePacket s .Mouse report

/-- Embedding of `SerialStreamer::publishMouseAbsoluteReport`. -/
def publishMouseAbsoluteReport (s : StreamerState) (report : List Nat) : StreamerState :=
  if ¬s.running then s else enqueuePacket s .MouseAbsolute report

/-- The chunking loop of `SerialStreamer::publishMicrophoneSamples`: repeatedly
take `min remaining 0xFFFF` bytes until the buffer is exhausted. -/
def micChunks (bytes : List Nat) : List (List Nat) :=
  if hne : bytes = [] then []
  else bytes.take 0xFFFF :: micChunks (bytes.drop 0xFFFF)
termination_by bytes.length
decreasing_by
  have hpos : 0 < bytes.length := List.length_pos.mpr hne
  simp [List.length_drop]
  omega

/-- Embedding of `SerialStreamer::publishMicrophoneSamples`: no-op on an empty
buffer or when not running; no-op when the transport is not ready (port closed
or marked dirty); otherwise enqueue every chunk as a microphone frame. -/
def publishMicrophoneSamples (s : StreamerState) (bytes : List Nat) : StreamerState :=
  if bytes = [] ∨ ¬s.running then s
  else if ¬(s.portOpen ∧ ¬s.portDirty) then s
  else (micChunks bytes).foldl (fun st c => enqueuePacket st .Microphone c) s

/-- Embedding of `SerialStreamer::setBaudRate`: a zero rate is replaced by
`kDefaultBaudRate`; an actual change installs the rate and marks the port
dirty. -/
def setBaudRate (s : StreamerState) (baudRate : Nat) : StreamerState :=
  let rate := if baudRate = 0 then kDefaultBaudRate else baudRate
  if s.baudRate = rate then s
  else { s with baudRate := rate, portDirty := true }

/-- Embedding of `SerialStreamer::start` (the relevant state effects): mark
running and force a (re)connect attempt by setting the dirty flag. -/
def startStreamer (s : StreamerState) : StreamerState :=
  if s.running then s else { s with running := true, portDirty := true }

/-- A `SerialStreamer` state with the worker connected: running, port open,
configuration clean — the state reached after `start` and a successful
`openDeviceLocked` in the worker. -/
def readyStreamer : StreamerState :=
  { initStreamerState with running := true, portOpen := true, portDirty := false }

/-- The publish operations a producer can perform on the streamer (the
claims' "publish/enqueue" operations). -/
inductive StreamOp where
  | keyboard (report : List Nat)
  | mouse (report : List Nat)
  | mouseAbsolute (report : List Nat)
  | microphone (bytes : List Nat)
deriving Repr

/-- Apply one publish operation. -/
def applyStreamOp (s : StreamerState) (op : StreamOp) : StreamerState :=
  match op with
  | .keyboard r => publishKeyboardReport s r
  | .mouse r => publishMouseReport s r
  | .mouseAbsolute r => publishMouseAbsoluteReport s r
  | .microphone bs => publishMicrophoneSamples s bs

/-- Apply a sequence of publish operations to the running, connected
streamer. -/
def applyStreamOps (ops : List StreamOp) : StreamerState :=
  ops.foldl applyStreamOp readyStreamer

/-- The cross-queue counter agrees with the actual number of queued frames. -/
def counterConsistent (s : StreamerState) : Prop :=
  s.totalQueued = queuedFrames s

theorem trimQueuesLocked_spec (s : StreamerState) (h : counterConsistent s) :
    counterConsistent (trimQueuesLocked s) ∧
      (trimQueuesLocked s).totalQueued ≤ kMaxQueuedPackets := by
  induction s using trimQueuesLocked.induct with
  | case1 x hlt hd rest heq ih =>
    rw [trimQueuesLocked]
    simp only [hlt, dif_pos, heq]
    exact ih (by simp [counterConsistent, queuedFrames, heq] at h ⊢; omega)
  | case2 x hlt hd rest heqk heqm ih =>
    simp only [heqm] at ih
    rw [trimQueuesLocked]
    simp only [hlt, dif_pos, heqk, heqm]
    exact ih (by simp [counterConsistent, queuedFrames, heqk, heqm] at h ⊢; omega)
  | case3 x hlt hd rest heqmo heqk heqm ih =>
    simp only [heqk, heqm] at ih
    rw [trimQueuesLocked]
    simp only [hlt, dif_pos, heqmo, heqk, heqm]
    exact ih (by simp [counterConsistent, queuedFrames, heqmo, heqk, heqm] at h ⊢; omega)
  | case4 x hlt heqmo heqk heqm =>
    simp [counterConsistent, queuedFrames, heqmo, heqk, heqm] at h
    omega
  | case5 x hlt =>
    rw [trimQueuesLocked]
    simp only [dif_neg hlt]
    exact ⟨h, by omega⟩

theorem trimQueuesLocked_eq_self (s : StreamerState)
    (h : s.totalQueued ≤ kMaxQueuedPackets) : trimQueuesLocked s = s := by
  rw [trimQueuesLocked]
  simp only [dif_neg (by omega : ¬kMaxQueuedPackets < s.totalQueued)]

/-- The queue invariant maintained across streamer operations. -/
def queueInvariant (s : StreamerState) : Prop :=
  counterConsistent s ∧ s.totalQueued ≤ kMaxQueuedPackets

theorem enqueuePacket_invariant (s : StreamerState) (type : PacketType)
    (payload : List Nat) (h : queueInvariant s) :
    queueInvariant (enqueuePacket s type payload) := by
  obtain ⟨h1, h2⟩ := h
  unfold enqueuePacket
  split
  · exact ⟨h1, h2⟩
  · cases type <;>
    · apply trimQueuesLocked_spec
      simp only [counterConsistent, queuedFrames, List.length_append, List.length_cons,
        List.length_nil] at h1 ⊢
      omega

theorem foldlEnqueueMic_invariant (chunks : List (List Nat)) (s : StreamerState)
    (h : queueInvariant s) :
    queueInvariant
      (chunks.foldl (fun st c => enqueuePacket st PacketType.Microphone c) s) := by
  induction chunks generalizing s with
  | nil => exact h
  | cons c rest ih => exact ih _ (enqueuePacket_invariant _ _ _ h)

theorem applyStreamOp_invariant (s : StreamerState) (op : StreamOp)
    (h : queueInvariant s) : queueInvariant (applyStreamOp s op) := by
  cases op with
  | keyboard r =>
    show queueInvariant (publishKeyboardReport s r)
    unfold publishKeyboardReport
    split
    · exact h
    · exact enqueuePacket_invariant _ _ _ h
  | mouse r =>
    show queueInvariant (publishMouseReport s r)
    unfold publishMouseReport
    split
    · exact h
    · exact enqueuePacket_invariant _ _ _ h
  | mouseAbsolute r =>
    show queueInvariant (publishMouseAbsoluteReport s r)
    unfold publishMouseAbsoluteReport
    split
    · exact h
    · exact enqueuePacket_invariant _ _ _ h
  | microphone bs =>
    show queueInvariant (publishMicrophoneSamples s bs)
    unfold publishMicrophoneSamples
    split
    · exact h
    · split
      · exact h
      · exact foldlEnqueueMic_invariant _ _ h

theorem applyStreamOps_invariant (ops : List StreamOp) :
    queueInvariant (applyStreamOps ops) := by
  unfold applyStreamOps
  have base : queueInvariant readyStreamer := by
    constructor <;> simp [readyStreamer, initStreamerState, counterConsistent, queuedFrames]
  generalize readyStreamer = s at base ⊢
  induction ops generalizing s with
  | nil => exact base
  | cons op rest ih => exact ih _ (applyStreamOp_invariant _ _ base)

/-- Embedding of `SerialStreamer::closeDeviceLocked` (purging and closing the
handle leaves the port closed; the port-name bookkeeping is not modelled). -/
def closeDeviceLocked (s : StreamerState) : StreamerState :=
  { s with portOpen := false }

/-- Embedding of `SerialStreamer::flushQueueLocked`: clear all three queues and
reset the counter. -/
def flushQueueLocked (s : StreamerState) : StreamerState :=
  { s with mouseQueue := [], keyboardQueue := [], microphoneQueue := [], totalQueued := 0 }

/-- The worker's dequeue of the front frame of the highest-priority non-empty
queue (mouse, then keyboard, then microphone), decrementing the counter when a
frame was taken (lines of `workerLoop` between the queue-empty check and the
write). -/
def dequeueHighestPriority (s : StreamerState) : Option Packet × StreamerState :=
  match s.mouseQueue with
  | p :: rest => (some p, { s with mouseQueue := rest, totalQueued := s.totalQueued - 1 })
  | [] =>
    match s.keyboardQueue with
    | p :: rest => (some p, { s with keyboardQueue := rest, totalQueued := s.totalQueued - 1 })
    | [] =>
      match s.microphoneQueue with
      | p :: rest => (some p, { s with microphoneQueue := rest, totalQueued := s.totalQueued - 1 })
      | [] => (none, s)

/-- Result of one worker iteration: the new state, and the frame whose bytes
were fully written to the transport during the iteration, if any. -/
structure WorkerResult where
  state : StreamerState
  wrote : Option Packet
deriving Repr, DecidableEq

/-- The dequeue-and-write phase of one `workerLoop` iteration (after the dirty
handling): if all queues are empty the worker goes back to waiting; otherwise
it dequeues the highest-priority frame; with an invalid handle the worker
sleeps (the already-dequeued frame is simply dropped); a `WriteFile` failure
closes the device and re-marks the port dirty, dropping the frame in flight;
a successful write emits the frame. `writeSucceeds` abstracts the outcome of
the `WriteFile`/`ClearCommError`/backlog sequence. -/
def workerWriteStep (writeSucceeds : Bool) (s : StreamerState) : WorkerResult :=
  if s.mouseQueue = [] ∧ s.keyboardQueue = [] ∧ s.microphoneQueue = [] then ⟨s, none⟩
  else
    match dequeueHighestPriority s with
    | (none, s1) => ⟨s1, none⟩
    | (some p, s1) =>
      if ¬s1.portOpen then ⟨s1, none⟩
      else if writeSucceeds then ⟨s1, some p⟩
      else ⟨{ closeDeviceLocked s1 with portDirty := true }, none⟩

/-- One iteration of `SerialStreamer::workerLoop` (the exit path aside): when
the port is dirty the worker first closes the device, flushes every queue,
clears the dirty flag and attempts `openDeviceLocked` (`openSucceeds`
abstracts its outcome; failure re-marks dirty and sleeps); only then does it
proceed to dequeue and write. -/
def workerIteration (openSucceeds writeSucceeds : Bool) (s : StreamerState) : WorkerResult :=
  if s.portDirty then
    let s1 := flushQueueLocked (closeDeviceLocked s)
    if openSucceeds then
      workerWriteStep writeSucceeds { s1 with portDirty := false, portOpen := true }
    else ⟨{ s1 with portDirty := true }, none⟩
  else workerWriteStep writeSucceeds s

/-- Iterate the worker `n` times over a healthy transport (open succeeds,
writes succeed), collecting the written frames in order. -/
def runWorker : Nat → StreamerState → List Packet × StreamerState
  | 0, s => ([], s)
  | n + 1, s =>
    let r := workerIteration true true s
    let rest := runWorker n r.state
    (r.wrote.toList ++ rest.1, rest.2)

/-- C1: for every sequence of publish operations on the running streamer the
total number of queued frames stays at or below `kMaxQueuedPackets` (1024) and
the cross-queue counter stays consistent; moreover whenever the counter is
over the cap, `trimQueuesLocked` drops the oldest microphone frame first, the
oldest keyboard frame only when the microphone queue is empty, and the oldest
mouse frame only when both are empty, recursing until the total is back at the
cap. -/
theorem C1_queue_cap_and_trim_priority :
    (∀ ops : List StreamOp,
        queuedFrames (applyStreamOps ops) ≤ kMaxQueuedPackets ∧
        (applyStreamOps ops).totalQueued = queuedFrames (applyStreamOps ops)) ∧
    (∀ s : StreamerState, kMaxQueuedPackets < s.totalQueued →
        (∀ p rest, s.microphoneQueue = p :: rest →
            trimQueuesLocked s =
              trimQueuesLocked
                { s with microphoneQueue := rest, totalQueued := s.totalQueued - 1 }) ∧
        (s.microphoneQueue = [] → ∀ p rest, s.keyboardQueue = p :: rest →
            trimQueuesLocked s =
              trimQueuesLocked
                { s with keyboardQueue := rest, totalQueued := s.totalQueued - 1 }) ∧
        (s.microphoneQueue = [] → s.keyboardQueue = [] → ∀ p rest, s.mouseQueue = p :: rest →
            trimQueuesLocked s =
              trimQueuesLocked
                { s with mouseQueue := rest, totalQueued := s.totalQueued - 1 })) := by
  constructor
  · intro ops
    obtain ⟨h1, h2⟩ := applyStreamOps_invariant ops
    exact ⟨h1 ▸ h2, h1⟩
  · intro s hlt
    refine ⟨?_, ?_, ?_⟩
    · intro p rest hmic
      conv_lhs => rw [trimQueuesLocked]
      simp only [dif_pos hlt, hmic]
    · intro hmic p rest hkb
      conv_lhs => rw [trimQueuesLocked]
      simp only [dif_pos hlt, hmic, hkb]
    · intro hmic hkb p rest hmouse
      conv_lhs => rw [trimQueuesLocked]
      simp only [dif_pos hlt, hmic, hkb, hmouse]

/-- Concrete instantiation of `C1_queue_cap_and_trim_priority`: the cap holds
for a concrete operation sequence, and an over-cap state with a queued
microphone frame is trimmed from the microphone queue. -/
theorem C1_queue_cap_and_trim_priority_witness :
    (queuedFrames (applyStreamOps [.keyboard [1, 2], .microphone [3]]) ≤ kMaxQueuedPackets) ∧
    (trimQueuesLocked
        { readyStreamer with
          microphoneQueue := [[7]], keyboardQueue := [[8]], totalQueued := 1025 } =
      trimQueuesLocked
        { readyStreamer with
          microphoneQueue := [], keyboardQueue := [[8]], totalQueued := 1024 }) :=
  ⟨(C1_queue_cap_and_trim_priority.1 [.keyboard [1, 2], .microphone [3]]).1,
    ((C1_queue_cap_and_trim_priority.2
        { readyStreamer with
          microphoneQueue := [[7]], keyboardQueue := [[8]], totalQueued := 1025 }
        (by decide)).1 [7] [] rfl)⟩

/-- C5 counterexample: the default baud rate in the source is 6,000,000, not
921,600 — rejecting a zero rate installs 6,000,000, and the initial rate
already is 6,000,000. -/
theorem C5_counterexample :
    (setBaudRate initStreamerState 0).baudRate = 6000000 ∧
    initStreamerState.baudRate = 6000000 ∧
    (6000000 : Nat) ≠ 921600 := by
  refine ⟨?_, rfl, by decide⟩
  decide

/-- C5 (amended): `setBaudRate 0` rejects the zero rate and installs
`kDefaultBaudRate`, which is 6,000,000 baud, and this same default is the
initial baud rate before any `setBaudRate` call. -/
theorem C5_baud_rate_default (s : StreamerState) :
    (setBaudRate s 0).baudRate = kDefaultBaudRate ∧
    kDefaultBaudRate = 6000000 ∧
    initStreamerState.baudRate = kDefaultBaudRate := by
  refine ⟨?_, rfl, rfl⟩
  by_cases hb : s.baudRate = kDefaultBaudRate
  · simp [setBaudRate, hb]
  · simp [setBaudRate, hb]

/-- Concrete instantiation of `C5_baud_rate_default` at the initial streamer
state. -/
theorem C5_baud_rate_default_witness :
    (setBaudRate initStreamerState 0).baudRate = kDefaultBaudRate :=
  (C5_baud_rate_default initStreamerState).1

theorem micChunks_nil : micChunks [] = [] := by
  rw [micChunks]
  exact dif_pos rfl

theorem micChunks_flatten (bytes : List Nat) : (micChunks bytes).flatten = bytes := by
  induction bytes using micChunks.induct with
  | case1 =>
    rw [micChunks_nil]
    rfl
  | case2 x hne ih =>
    rw [micChunks, dif_neg hne]
    simp [ih, List.take_append_drop]

theorem micChunks_mem (bytes c : List Nat) (hc : c ∈ micChunks bytes) :
    c.length ≤ 0xFFFF ∧ c ≠ [] := by
  induction bytes using micChunks.induct with
  | case1 =>
    rw [micChunks_nil] at hc
    simp at hc
  | case2 x hne ih =>
    rw [micChunks, dif_neg hne] at hc
    rcases List.mem_cons.mp hc with h | h
    · subst h
      refine ⟨by simp [List.length_take], ?_⟩
      simp only [ne_eq, List.take_eq_nil_iff]
      push_neg
      exact ⟨by decide, hne⟩
    · exact ih h

theorem micChunks_small (bytes : List Nat) (hne : bytes ≠ [])
    (hlen : bytes.length ≤ 0xFFFF) : micChunks bytes = [bytes] := by
  rw [micChunks, dif_neg hne, List.take_of_length_le hlen,
    List.drop_eq_nil_of_le hlen, micChunks_nil]

theorem micChunks_replicate70000 :
    micChunks (List.replicate 70000 (0 : Nat)) =
      [List.replicate 65535 0, List.replicate 4465 0] := by
  have h1 : (List.replicate 70000 (0 : Nat)).take 0xFFFF = List.replicate 65535 0 := by
    rw [List.take_replicate]
    congr 1
  have h2 : (List.replicate 70000 (0 : Nat)).drop 0xFFFF = List.replicate 4465 0 := by
    rw [List.drop_replicate]
  have h3 : micChunks (List.replicate 4465 (0 : Nat)) = [List.replicate 4465 0] :=
    micChunks_small _ (List.ne_nil_of_length_pos (by rw [List.length_replicate]; omega))
      (by rw [List.length_replicate]; omega)
  rw [micChunks,
    dif_neg (List.ne_nil_of_length_pos
      (by rw [List.length_replicate]; omega : 0 < (List.replicate 70000 (0 : Nat)).length)),
    h1, h2, h3]

theorem buildPacket_small (type : PacketType) (payload : List Nat)
    (h : payload.length ≤ 0xFFFF) :
    buildPacket type payload =
      kFrameSync0 :: kFrameSync1 :: type.code ::
        (payload.length / 256) :: (payload.length % 256) :: payload := by
  unfold buildPacket
  have hmin : min payload.length 0xFFFF = payload.length := Nat.min_eq_left h
  have hdiv : payload.length / 256 < 256 := by omega
  simp [hmin, Nat.shiftRight_eq_div_pow, Nat.mod_eq_of_lt hdiv, List.take_length]

theorem enqueuePacket_mic_no_trim (s : StreamerState) (c : List Nat)
    (hrun : s.running = true) (hcap : s.totalQueued + 1 ≤ kMaxQueuedPackets) :
    enqueuePacket s .Microphone c =
      { s with microphoneQueue := s.microphoneQueue ++ [buildPacket .Microphone c],
               totalQueued := s.totalQueued + 1 } := by
  unfold enqueuePacket
  rw [if_neg (by simp [hrun])]
  exact trimQueuesLocked_eq_self _ (by simpa using hcap)

theorem foldlEnqueueMic_eq (chunks : List (List Nat)) (s : StreamerState)
    (hrun : s.running = true)
    (hcap : s.totalQueued + chunks.length ≤ kMaxQueuedPackets) :
    chunks.foldl (fun st c => enqueuePacket st PacketType.Microphone c) s =
      { s with
        microphoneQueue := s.microphoneQueue ++ chunks.map (buildPacket .Microphone),
        totalQueued := s.totalQueued + chunks.length } := by
  induction chunks generalizing s with
  | nil =>
    simp
  | cons c rest ih =>
    simp only [List.foldl_cons, List.length_cons] at hcap ⊢
    rw [enqueuePacket_mic_no_trim s c hrun (by omega)]
    rw [ih _ (by simp [hrun]) (by simp; omega)]
    simp [List.append_assoc]
    omega

/-- C6: publishing microphone samples on a running streamer with a ready
transport splits the buffer into chunks of at most 0xFFFF bytes and enqueues
each chunk as one microphone frame, in order, leaving the other queues
untouched (stated here for inputs whose chunk count fits under the queue cap
from the current fill level, so that no trimming interferes); each frame's
type byte is 0x03 and its big-endian length field equals the chunk size; the
chunks concatenate back to the input; and a 70,000-byte buffer yields exactly
the chunk lengths 65535 and 4465. If the transport is dirty or closed, the
streamer state is unchanged — nothing is enqueued. -/
theorem C6_microphone_chunking :
    (∀ (s : StreamerState) (bytes : List Nat), ¬(s.portOpen = true ∧ s.portDirty = false) →
        publishMicrophoneSamples s bytes = s) ∧
    (∀ (s : StreamerState) (bytes : List Nat),
        s.running = true → s.portOpen = true → s.portDirty = false →
        s.totalQueued + (micChunks bytes).length ≤ kMaxQueuedPackets →
        (publishMicrophoneSamples s bytes).microphoneQueue =
            s.microphoneQueue ++ (micChunks bytes).map (buildPacket .Microphone) ∧
        (publishMicrophoneSamples s bytes).mouseQueue = s.mouseQueue ∧
        (publishMicrophoneSamples s bytes).keyboardQueue = s.keyboardQueue) ∧
    (∀ bytes c : List Nat, c ∈ micChunks bytes →
        c.length ≤ 0xFFFF ∧
        buildPacket .Microphone c =
          kFrameSync0 :: kFrameSync1 :: 0x03 ::
            (c.length / 256) :: (c.length % 256) :: c) ∧
    (∀ bytes : List Nat, (micChunks bytes).flatten = bytes) ∧
    (micChunks (List.replicate 70000 (0 : Nat))).map List.length = [65535, 4465] := by
  refine ⟨?_, ?_, ?_, micChunks_flatten, ?_⟩
  · intro s bytes hnr
    unfold publishMicrophoneSamples
    split
    · rfl
    · rw [if_pos]
      simpa using hnr
  · intro s bytes hrun hopen hdirty hcap
    unfold publishMicrophoneSamples
    split
    · next hstop =>
      rcases hstop with hb | hr
      · subst hb
        rw [micChunks_nil]
        simp
      · simp [hrun] at hr
    · rw [if_neg (by simp [hopen, hdirty])]
      rw [foldlEnqueueMic_eq _ _ hrun hcap]
      exact ⟨rfl, rfl, rfl⟩
  · intro bytes c hc
    obtain ⟨hlen, _⟩ := micChunks_mem bytes c hc
    exact ⟨hlen, buildPacket_small .Microphone c hlen⟩
  · rw [micChunks_replicate70000]
    simp only [List.map_cons, List.map_nil, List.length_replicate]

/-- Concrete instantiation of `C6_microphone_chunking`: a dirty transport
swallows the publish, and a ready streamer enqueues a small buffer as a single
microphone frame. -/
theorem C6_microphone_chunking_witness :
    publishMicrophoneSamples { readyStreamer with portDirty := true } [1, 2, 3] =
        { readyStreamer with portDirty := true } ∧
    (publishMicrophoneSamples readyStreamer [1, 2, 3]).microphoneQueue =
        [] ++ (micChunks [1, 2, 3]).map (buildPacket .Microphone) :=
  ⟨C6_microphone_chunking.1 { readyStreamer with portDirty := true } [1, 2, 3]
      (by decide),
    (C6_microphone_chunking.2.1 readyStreamer [1, 2, 3] rfl rfl rfl
      (by rw [micChunks_small [1, 2, 3] (by decide) (by decide)]; decide)).1⟩

/-- A streamer state during a transport outage: a write failed earlier (the
worker closed the port and marked it dirty), and one keyboard frame has been
enqueued while the transport was down. -/
def c4OutageState : StreamerState :=
  { readyStreamer with
    portOpen := false
    portDirty := true
    keyboardQueue := [buildPacket .Keyboard [1, 0, 4, 0, 0, 0, 0, 0]]
    totalQueued := 1 }

/-- C4 counterexample: with a frame enqueued during the outage, the worker's
next iteration does reopen the transport, but `flushQueueLocked` discards the
queued frame first — it is never written, before or after the successful
reconnect. This refutes the claim that frames enqueued during the outage are
preserved and written out after the reconnect. -/
theorem C4_counterexample :
    c4OutageState.keyboardQueue ≠ [] ∧
    (workerIteration true true c4OutageState).state.portOpen = true ∧
    (workerIteration true true c4OutageState).state.portDirty = false ∧
    (workerIteration true true c4OutageState).wrote = none ∧
    (workerIteration true true c4OutageState).state.keyboardQueue = [] ∧
    (runWorker 5 (workerIteration true true c4OutageState).state).1 = [] := by
  refine ⟨by decide, rfl, rfl, rfl, rfl, rfl⟩

/-- C4 (amended): after a write failure the port is dirty, and a dirty
iteration never writes — the worker reopens the transport (when the open
succeeds) before resuming writes — but it first discards every queued frame,
so frames enqueued during the outage are dropped rather than preserved; only
frames enqueued after the successful reopen are written out, and those are
written in their original arrival order. -/
theorem C4_reconnect_reopens_then_discards :
    (∀ (o w : Bool) (s : StreamerState), s.portDirty = true →
        (workerIteration o w s).wrote = none ∧
        (workerIteration o w s).state.mouseQueue = [] ∧
        (workerIteration o w s).state.keyboardQueue = [] ∧
        (workerIteration o w s).state.microphoneQueue = [] ∧
        (workerIteration o w s).state.portOpen = o ∧
        (workerIteration o w s).state.portDirty = !o) ∧
    (∀ (ps : List Packet) (s : StreamerState),
        s.portDirty = false → s.portOpen = true →
        s.mouseQueue = [] → s.microphoneQueue = [] → s.keyboardQueue = ps →
        (runWorker ps.length s).1 = ps) := by
  constructor
  · intro o w s hdirty
    unfold workerIteration
    rw [if_pos hdirty]
    cases o with
    | true =>
      refine ⟨?_, ?_, ?_, ?_, ?_, ?_⟩ <;>
        simp [workerWriteStep, flushQueueLocked, closeDeviceLocked]
    | false =>
      exact ⟨rfl, rfl, rfl, rfl, rfl, rfl⟩
  · intro ps
    induction ps with
    | nil =>
      intro s _ _ _ _ _
      rfl
    | cons p rest ih =>
      intro s h1 h2 h3 h4 h5
      have hiter : workerIteration true true s =
          ⟨{ s with keyboardQueue := rest, totalQueued := s.totalQueued - 1 }, some p⟩ := by
        unfold workerIteration
        rw [if_neg (by simp [h1])]
        unfold workerWriteStep
        rw [if_neg (by simp [h5])]
        unfold dequeueHighestPriority
        simp only [h3, h4, h5]
        rw [if_neg (by simp [h2])]
        simp
      show (runWorker (rest.length + 1) s).1 = p :: rest
      rw [runWorker, hiter]
      have htail :
          (runWorker rest.length
            { s with keyboardQueue := rest, totalQueued := s.totalQueued - 1 }).1 = rest :=
        ih _ h1 h2 h3 h4 rfl
      simp [htail]

/-- Concrete instantiation of `C4_reconnect_reopens_then_discards`: a dirty
iteration writes nothing, and a connected streamer drains a one-frame keyboard
queue in order. -/
theorem C4_reconnect_reopens_then_discards_witness :
    (workerIteration true true { readyStreamer with portDirty := true }).wrote = none ∧
    (runWorker 1 { readyStreamer with keyboardQueue := [[5]], totalQueued := 1 }).1 = [[5]] :=
  ⟨(C4_reconnect_reopens_then_discards.1 true true
      { readyStreamer with portDirty := true } rfl).1,
    C4_reconnect_reopens_then_discards.2 [[5]]
      { readyStreamer with keyboardQueue := [[5]], totalQueued := 1 } rfl rfl rfl rfl rfl⟩

/-! Capture Translator: embedding of `InputCaptureManager` from
`src/InputCapture.cpp` / `InputCapture.hpp`. Windows virtual-key codes are
modelled as their numeric values. -/

/-- Windows virtual-key code VK_BACK. -/
def VK_BACK : Nat := 0x08

/-- Windows virtual-key code VK_TAB. -/
def VK_TAB : Nat := 0x09

/-- Windows virtual-key code VK_CLEAR. -/
def VK_CLEAR : Nat := 0x0C

/-- Windows virtual-key code VK_RETURN. -/
def VK_RETURN : Nat := 0x0D

/-- Windows virtual-key code VK_SHIFT (generic). -/
def VK_SHIFT : Nat := 0x10

/-- Windows virtual-key code VK_CONTROL (generic). -/
def VK_CONTROL : Nat := 0x11

/-- Windows virtual-key code VK_MENU (generic Alt). -/
def VK_MENU : Nat := 0x12

/-- Windows virtual-key code VK_PAUSE. -/
def VK_PAUSE : Nat := 0x13

/-- Windows virtual-key code VK_CAPITAL. -/
def VK_CAPITAL : Nat := 0x14

/-- Windows virtual-key code VK_ESCAPE. -/
def VK_ESCAPE : Nat := 0x1B

/-- Windows virtual-key code VK_SPACE. -/
def VK_SPACE : Nat := 0x20

/-- Windows virtual-key code VK_PRIOR (Page Up). -/
def VK_PRIOR : Nat := 0x21

/-- Windows virtual-key code VK_NEXT (Page Down). -/
def VK_NEXT : Nat := 0x22

/-- Windows virtual-key code VK_END. -/
def VK_END : Nat := 0x23

/-- Windows virtual-key code VK_HOME. -/
def VK_HOME : Nat := 0x24

/-- Windows virtual-key code VK_LEFT. -/
def VK_LEFT : Nat := 0x25

/-- Windows virtual-key code VK_UP. -/
def VK_UP : Nat := 0x26

/-- Windows virtual-key code VK_RIGHT. -/
def VK_RIGHT : Nat := 0x27

/-- Windows virtual-key code VK_DOWN. -/
def VK_DOWN : Nat := 0x28

/-- Windows virtual-key code VK_PRINT. -/
def VK_PRINT : Nat := 0x2A

/-- Windows virtual-key code VK_SNAPSHOT. -/
def VK_SNAPSHOT : Nat := 0x2C

/-- Windows virtual-key code VK_INSERT. -/
def VK_INSERT : Nat := 0x2D

/-- Windows virtual-key code VK_DELETE. -/
def VK_DELETE : Nat := 0x2E

/-- Windows virtual-key code VK_LWIN. -/
def VK_LWIN : Nat := 0x5B

/-- Windows virtual-key code VK_RWIN. -/
def VK_RWIN : Nat := 0x5C

/-- Windows virtual-key code VK_APPS. -/
def VK_APPS : Nat := 0x5D

/-- Windows virtual-key code VK_NUMPAD0. -/
def VK_NUMPAD0 : Nat := 0x60

/-- Windows virtual-key code VK_NUMPAD1. -/
def VK_NUMPAD1 : Nat := 0x61

/-- Windows virtual-key code VK_NUMPAD9. -/
def VK_NUMPAD9 : Nat := 0x69

/-- Windows virtual-key code VK_MULTIPLY. -/
def VK_MULTIPLY : Nat := 0x6A

/-- Windows virtual-key code VK_ADD. -/
def VK_ADD : Nat := 0x6B

/-- Windows virtual-key code VK_SEPARATOR. -/
def VK_SEPARATOR : Nat := 0x6C

/-- Windows virtual-key code VK_SUBTRACT. -/
def VK_SUBTRACT : Nat := 0x6D

/-- Windows virtual-key code VK_DECIMAL. -/
def VK_DECIMAL : Nat := 0x6E

/-- Windows virtual-key code VK_DIVIDE. -/
def VK_DIVIDE : Nat := 0x6F

/-- Windows virtual-key code VK_F1. -/
def VK_F1 : Nat := 0x70

/-- Windows virtual-key code VK_F12. -/
def VK_F12 : Nat := 0x7B

/-- Windows virtual-key code VK_F13. -/
def VK_F13 : Nat := 0x7C

/-- Windows virtual-key code VK_F24. -/
def VK_F24 : Nat := 0x87

/-- Windows virtual-key code VK_NUMLOCK. -/
def VK_NUMLOCK : Nat := 0x90

/-- Windows virtual-key code VK_SCROLL. -/
def VK_SCROLL : Nat := 0x91

/-- Windows virtual-key code VK_LSHIFT. -/
def VK_LSHIFT : Nat := 0xA0

/-- Windows virtual-key code VK_RSHIFT. -/
def VK_RSHIFT : Nat := 0xA1

/-- Windows virtual-key code VK_LCONTROL. -/
def VK_LCONTROL : Nat := 0xA2

/-- Windows virtual-key code VK_RCONTROL. -/
def VK_RCONTROL : Nat := 0xA3

/-- Windows virtual-key code VK_LMENU. -/
def VK_LMENU : Nat := 0xA4

/-- Windows virtual-key code VK_RMENU. -/
def VK_RMENU : Nat := 0xA5

/-- Windows virtual-key code VK_OEM_1 (semicolon). -/
def VK_OEM_1 : Nat := 0xBA

/-- Windows virtual-key code VK_OEM_PLUS. -/
def VK_OEM_PLUS : Nat := 0xBB

/-- Windows virtual-key code VK_OEM_COMMA. -/
def VK_OEM_COMMA : Nat := 0xBC

/-- Windows virtual-key code VK_OEM_MINUS. -/
def VK_OEM_MINUS : Nat := 0xBD

/-- Windows virtual-key code VK_OEM_PERIOD. -/
def VK_OEM_PERIOD : Nat := 0xBE

/-- Windows virtual-key code VK_OEM_2 (slash). -/
def VK_OEM_2 : Nat := 0xBF

/-- Windows virtual-key code VK_OEM_3 (grave). -/
def VK_OEM_3 : Nat := 0xC0

/-- Windows virtual-key code VK_OEM_4 (left bracket). -/
def VK_OEM_4 : Nat := 0xDB

/-- Windows virtual-key code VK_OEM_5 (backslash). -/
def VK_OEM_5 : Nat := 0xDC

/-- Windows virtual-key code VK_OEM_6 (right bracket). -/
def VK_OEM_6 : Nat := 0xDD

/-- Windows virtual-key code VK_OEM_7 (quote). -/
def VK_OEM_7 : Nat := 0xDE

/-- Windows virtual-key code VK_OEM_102 (non-US backslash). -/
def VK_OEM_102 : Nat := 0xE2

/-- Constant kMenuHotkeyVirtualKey from `InputCapture.cpp`: the character
code of the letter M. -/
def kMenuHotkeyVirtualKey : Nat := 0x4D

/-- Embedding of the anonymous-namespace helper `isMenuModifierKey`. -/
def isMenuModifierKey (vk : Nat) : Bool :=
  vk == VK_CONTROL || vk == VK_LCONTROL || vk == VK_RCONTROL ||
  vk == VK_MENU || vk == VK_LMENU || vk == VK_RMENU

/-- Embedding of the anonymous-namespace helper `isMenuChordKey`. -/
def isMenuChordKey (vk : Nat) : Bool :=
  vk == kMenuHotkeyVirtualKey || isMenuModifierKey vk

/-- Embedding of `InputCaptureManager::isModifierVirtualKey`. -/
def isModifierVirtualKey (vk : Nat) : Bool :=
  vk == VK_LSHIFT || vk == VK_RSHIFT || vk == VK_SHIFT ||
  vk == VK_LCONTROL || vk == VK_RCONTROL || vk == VK_CONTROL ||
  vk == VK_LMENU || vk == VK_RMENU || vk == VK_MENU ||
  vk == VK_LWIN || vk == VK_RWIN

/-- Embedding of `InputCaptureManager::translateVirtualKeyToUsage`: the static
virtual-key to HID-usage table (letters, number row, the editing/navigation
switch, numpad, F13-F24, and the scan-code 0x56 OEM-102 fallback for
non-extended keys; `scanCode & 0xFF` is `scanCode % 256`). -/
def translateVirtualKeyToUsage (vk scanCode : Nat) (extended : Bool) : Nat :=
  if 0x41 ≤ vk ∧ vk ≤ 0x5A then 0x04 + (vk - 0x41)
  else if 0x31 ≤ vk ∧ vk ≤ 0x39 then 0x1E + (vk - 0x31)
  else if vk = 0x30 then 0x27
  else if vk = VK_RETURN then (if extended then 0x58 else 0x28)
  else if vk = VK_ESCAPE then 0x29
  else if vk = VK_BACK then 0x2A
  else if vk = VK_TAB then 0x2B
  else if vk = VK_SPACE then 0x2C
  else if vk = VK_OEM_MINUS then 0x2D
  else if vk = VK_OEM_PLUS then 0x2E
  else if vk = VK_OEM_4 then 0x2F
  else if vk = VK_OEM_6 then 0x30
  else if vk = VK_OEM_5 then 0x31
  else if vk = VK_OEM_1 then 0x33
  else if vk = VK_OEM_7 then 0x34
  else if vk = VK_OEM_3 then 0x35
  else if vk = VK_OEM_COMMA then 0x36
  else if vk = VK_OEM_PERIOD then 0x37
  else if vk = VK_OEM_2 then 0x38
  else if vk = VK_CAPITAL then 0x39
  else if VK_F1 ≤ vk ∧ vk ≤ VK_F12 then 0x3A + (vk - VK_F1)
  else if vk = VK_PRINT ∨ vk = VK_SNAPSHOT then 0x46
  else if vk = VK_SCROLL then 0x47
  else if vk = VK_PAUSE then 0x48
  else if vk = VK_INSERT then 0x49
  else if vk = VK_HOME then 0x4A
  else if vk = VK_PRIOR then 0x4B
  else if vk = VK_DELETE then 0x4C
  else if vk = VK_END then 0x4D
  else if vk = VK_NEXT then 0x4E
  else if vk = VK_RIGHT then 0x4F
  else if vk = VK_LEFT then 0x50
  else if vk = VK_DOWN then 0x51
  else if vk = VK_UP then 0x52
  else if vk = VK_NUMLOCK then 0x53
  else if vk = VK_DIVIDE then 0x54
  else if vk = VK_MULTIPLY then 0x55
  else if vk = VK_SUBTRACT then 0x56
  else if vk = VK_ADD then 0x57
  else if vk = VK_SEPARATOR then 0x58
  else if vk = VK_DECIMAL then 0x63
  else if vk = VK_CLEAR then 0x5D
  else if vk = VK_APPS then 0x65
  else if vk = VK_OEM_102 then 0x64
  else if VK_NUMPAD1 ≤ vk ∧ vk ≤ VK_NUMPAD9 then 0x59 + (vk - VK_NUMPAD1)
  else if vk = VK_NUMPAD0 then 0x62
  else if VK_F13 ≤ vk ∧ vk ≤ VK_F24 then 0x68 + (vk - VK_F13)
  else if ¬extended ∧ scanCode % 256 = 0x56 then 0x64
  else 0

/-- A screen-space RECT. -/
structure Rect where
  left : Int
  top : Int
  right : Int
  bottom : Int
deriving Repr, DecidableEq

/-- The `InputCaptureManager` state the claims depend on. The two fields
`hasTargetWindow` and `windowAtPointIsTarget` model the OS environment around
the point-to-window ownership check: whether `targetWindow_` is non-null, and
whether `WindowFromPoint`/`GetAncestor` resolve the probed point to that
window (a property of the OS window stack, constant over one event). -/
structure CaptureState where
  enabled : Bool
  absoluteMode : Bool
  captureBounds : Rect
  captureBoundsValid : Bool
  videoBounds : Rect
  videoBoundsValid : Bool
  targetWidth : Int
  targetHeight : Int
  menuChordEnabled : Bool
  hasTargetWindow : Bool
  windowAtPointIsTarget : Bool
  leftCtrl : Bool
  rightCtrl : Bool
  leftShift : Bool
  rightShift : Bool
  leftAlt : Bool
  rightAlt : Bool
  leftWin : Bool
  rightWin : Bool
  activeKeys : List Nat
  keyboardOverflow : Bool
  menuChordLatched : Bool
  leftButtonDown : Bool
  rightButtonDown : Bool
  middleButtonDown : Bool
  xButton1Down : Bool
  xButton2Down : Bool
  relativeCaptureActive : Bool
  relativeCaptureSuspended : Bool
  relativeAnchorPoint : Int × Int
  skipNextRelativeEvent : Bool
  lastMousePoint : Int × Int
  hasLastMousePoint : Bool
deriving Repr, DecidableEq

/-- State of a freshly constructed `InputCaptureManager` (member default
values of `InputCapture.hpp`): everything disabled/false/empty, target
resolution 1920 by 1080. -/
def initCaptureState : CaptureState :=
  { enabled := false
    absoluteMode := false
    captureBounds := ⟨0, 0, 0, 0⟩
    captureBoundsValid := false
    videoBounds := ⟨0, 0, 0, 0⟩
    videoBoundsValid := false
    targetWidth := 1920
    targetHeight := 1080
    menuChordEnabled := false
    hasTargetWindow := false
    windowAtPointIsTarget := false
    leftCtrl := false
    rightCtrl := false
    leftShift := false
    rightShift := false
    leftAlt := false
    rightAlt := false
    leftWin := false
    rightWin := false
    activeKeys := []
    keyboardOverflow := false
    menuChordLatched := false
    leftButtonDown := false
    rightButtonDown := false
    middleButtonDown := false
    xButton1Down := false
    xButton2Down := false
    relativeCaptureActive := false
    relativeCaptureSuspended := false
    relativeAnchorPoint := (0, 0)
    skipNextRelativeEvent := false
    lastMousePoint := (0, 0)
    hasLastMousePoint := false }

/-- Embedding of `InputCaptureManager::getCaptureBounds` (the valid flag plus
the rectangle, read under the bounds lock). -/
def getCaptureBounds (s : CaptureState) : Option Rect :=
  if s.captureBoundsValid then some s.captureBounds else none

/-- Embedding of `InputCaptureManager::getVideoBounds`. -/
def getVideoBounds (s : CaptureState) : Option Rect :=
  if s.videoBoundsValid then some s.videoBounds else none

/-- Embedding of `InputCaptureManager::isWithinCaptureBounds`: the point must
lie in the half-open capture rectangle; with a null target window that
suffices, otherwise the point must resolve to the target window through
`WindowFromPoint`/`GetAncestor` (modelled by `windowAtPointIsTarget`). -/
def isWithinCaptureBounds (s : CaptureState) (pt : Int × Int) : Bool :=
  match getCaptureBounds s with
  | none => false
  | some bounds =>
    if pt.1 ≥ bounds.left ∧ pt.1 < bounds.right ∧
        pt.2 ≥ bounds.top ∧ pt.2 < bounds.bottom then
      if ¬s.hasTargetWindow then true else s.windowAtPointIsTarget
    else false

/-- Embedding of `InputCaptureManager::currentModifierBits`: the HID modifier
bitmask (bit 0 LCtrl through bit 7 RGui). -/
def currentModifierBits (s : CaptureState) : Nat :=
  (if s.leftCtrl then 0x01 else 0) |||
  (if s.leftShift then 0x02 else 0) |||
  (if s.leftAlt then 0x04 else 0) |||
  (if s.leftWin then 0x08 else 0) |||
  (if s.rightCtrl then 0x10 else 0) |||
  (if s.rightShift then 0x20 else 0) |||
  (if s.rightAlt then 0x40 else 0) |||
  (if s.rightWin then 0x80 else 0)

/-- The 8-byte keyboard report assembled by
`InputCaptureManager::sendKeyboardReport`: modifier bitmask, reserved zero,
then six key slots — all 0x01 under overflow, otherwise the active keys in
press order, zero-padded. -/
def keyboardReport (s : CaptureState) : List Nat :=
  currentModifierBits s :: 0 ::
    (if s.keyboardOverflow then List.replicate 6 0x01
     else s.activeKeys.take 6 ++ List.replicate (6 - min s.activeKeys.length 6) 0)

/-- The `effectiveVk` computation of `InputCaptureManager::updateModifierState`.
The source first asks `MapVirtualKey(MAPVK_VSC_TO_VK_EX)` to disambiguate the
generic `VK_SHIFT`/`VK_CONTROL`/`VK_MENU` codes; that OS table lookup is
modelled as unavailable (returning 0), so the source's explicit
extended-flag/scan-code fallbacks apply. Events carrying already-specific
left/right codes — what the low-level hook delivers — bypass this branch
entirely, as in the source. -/
def resolveEffectiveVk (vk scanCode : Nat) (extended : Bool) : Nat :=
  if vk = VK_SHIFT ∨ vk = VK_CONTROL ∨ vk = VK_MENU then
    if vk = VK_CONTROL then (if extended then VK_RCONTROL else VK_LCONTROL)
    else if vk = VK_MENU then (if extended then VK_RMENU else VK_LMENU)
    else (if scanCode = 0x36 then VK_RSHIFT else VK_LSHIFT)
  else vk

/-- The modifier-flag switch of `InputCaptureManager::updateModifierState`. -/
def setModifierFlag (s : CaptureState) (effectiveVk : Nat) (down : Bool) : CaptureState :=
  if effectiveVk = VK_LCONTROL then { s with leftCtrl := down }
  else if effectiveVk = VK_RCONTROL then { s with rightCtrl := down }
  else if effectiveVk = VK_LSHIFT then { s with leftShift := down }
  else if effectiveVk = VK_RSHIFT then { s with rightShift := down }
  else if effectiveVk = VK_LMENU then { s with leftAlt := down }
  else if effectiveVk = VK_RMENU then { s with rightAlt := down }
  else if effectiveVk = VK_LWIN then { s with leftWin := down }
  else if effectiveVk = VK_RWIN then { s with rightWin := down }
  else s

/-- Embedding of `InputCaptureManager::updateModifierState`: resolve the
effective virtual key, then set the matching modifier flag. -/
def updateModifierState (s : CaptureState) (vk scanCode : Nat)
    (extended down : Bool) : CaptureState :=
  setModifierFlag s (resolveEffectiveVk vk scanCode extended) down

/-- The non-modifier key-slot update of `InputCaptureManager::handleKeyboardEvent`
(the block guarded by `!isModifierVirtualKey(vk)`): on a press of a key not
already held, append it if fewer than six keys are held (clearing the overflow
flag), otherwise set the overflow flag; on a release, erase the key by value
and clear the overflow flag. -/
def processKeySlots (s : CaptureState) (down : Bool) (vk scanCode : Nat)
    (extended : Bool) : CaptureState :=
  if ¬isModifierVirtualKey vk then
    let usage := translateVirtualKeyToUsage vk scanCode extended
    if usage ≠ 0 then
      if down then
        if usage ∈ s.activeKeys then s
        else if s.activeKeys.length < 6 then
          { s with activeKeys := s.activeKeys ++ [usage], keyboardOverflow := false }
        else { s with keyboardOverflow := true }
      else
        { s with activeKeys := s.activeKeys.erase usage, keyboardOverflow := false }
    else s
  else s

/-- Output of one keyboard-hook event: the new state, the keyboard reports
published to the streamer, and the number of show-menu signals posted. -/
structure KeyOutput where
  state : CaptureState
  reports : List (List Nat)
  menuSignals : Nat
deriving Repr, DecidableEq

/-- Embedding of `InputCaptureManager::handleKeyboardEvent` for key-down and
key-up messages (`down` distinguishes them; other messages never reach the
body). `cursorInBounds` stands for `GetCursorPos` succeeding with the cursor
inside the capture bounds on the target window — the gate applied to
non-chord-candidate keys. The chord branches post `WM_INPUT_CAPTURE_SHOW_MENU`
only when the target window is non-null; cursor-clip requests carry no
modelled state. -/
def handleKeyboardEvent (s : CaptureState) (down : Bool) (vk scanCode : Nat)
    (extended injected cursorInBounds : Bool) : KeyOutput :=
  if injected then ⟨s, [], 0⟩
  else
    let chordEnabled := s.menuChordEnabled
    let chordCandidate := chordEnabled && isMenuChordKey vk
    if ¬chordCandidate ∧ ¬cursorInBounds then ⟨s, [], 0⟩
    else
      let s1 := updateModifierState s vk scanCode extended down
      let ctrlActive := s1.leftCtrl || s1.rightCtrl
      let altActive := s1.leftAlt || s1.rightAlt
      let menuChord := chordEnabled && ctrlActive && altActive
      let isMenuKey := chordEnabled && (vk == kMenuHotkeyVirtualKey)
      if isMenuKey && (menuChord && down) then
        if ¬s1.menuChordLatched then
          ⟨{ s1 with menuChordLatched := true }, [],
            if s1.hasTargetWindow then 1 else 0⟩
        else ⟨s1, [], 0⟩
      else if isMenuKey && s1.menuChordLatched then
        if ¬down ∨ ¬menuChord then ⟨{ s1 with menuChordLatched := false }, [], 0⟩
        else ⟨s1, [], 0⟩
      else
        let s2 :=
          if ¬isMenuKey ∧ s1.menuChordLatched ∧ chordEnabled ∧ ¬menuChord ∧
              ¬down ∧ isMenuModifierKey vk then
            { s1 with menuChordLatched := false }
          else s1
        let s3 := processKeySlots s2 down vk scanCode extended
        ⟨s3, [keyboardReport s3], 0⟩

/-- One keyboard-hook event as seen by `handleKeyboardEvent`. -/
structure KeyEvent where
  down : Bool
  vk : Nat
  scanCode : Nat
  extended : Bool
  injected : Bool
  cursorInBounds : Bool
deriving Repr, DecidableEq

/-- Fold a sequence of keyboard events through `handleKeyboardEvent`. -/
def applyKeyEvents (s : CaptureState) (evs : List KeyEvent) : CaptureState :=
  evs.foldl
    (fun st e =>
      (handleKeyboardEvent st e.down e.vk e.scanCode e.extended e.injected
        e.cursorInBounds).state)
    s

/-- Total number of show-menu signals posted while folding a sequence of
keyboard events. -/
def countMenuSignals (s : CaptureState) (evs : List KeyEvent) : Nat :=
  (evs.foldl
    (fun acc e =>
      let out := handleKeyboardEvent acc.1 e.down e.vk e.scanCode e.extended
        e.injected e.cursorInBounds
      (out.state, acc.2 + out.menuSignals))
    (s, 0)).2

/-- Constant kMouseDeltaMax from `InputCapture.cpp`. -/
def kMouseDeltaMax : Int := 127

/-- Constant kMouseDeltaMin from `InputCapture.cpp`. -/
def kMouseDeltaMin : Int := -127

/-- The value computed by `std::clamp(value, lo, hi)` for `lo ≤ hi`. -/
def clampValue (value lo hi : Int) : Int := min (max value lo) hi

/-- Embedding of the anonymous-namespace helper `clampInt8` (the resulting
`int8_t` is kept as its mathematical value). -/
def clampInt8 (value : Int) : Int := clampValue value kMouseDeltaMin kMouseDeltaMax

/-- The byte produced by `static_cast<std::uint8_t>` of a signed 8-bit value
(two's complement). -/
def toByte (v : Int) : Nat := (v % 256).toNat

/-- Low-level mouse-hook messages (`wParam` values reaching
`InputCaptureManager::handleMouseEvent`). -/
inductive MouseMsg where
  | move
  | lDown
  | lUp
  | lDblClk
  | rDown
  | rUp
  | rDblClk
  | mDown
  | mUp
  | mDblClk
  | xDown
  | xUp
  | xDblClk
  | wheel
  | hwheel
deriving Repr, DecidableEq

/-- Embedding of `InputCaptureManager::updateMouseButtonState`; `mouseData`
carries the signed HIWORD of the event's `mouseData` field (wheel delta for
wheel messages, the XBUTTON flag word for X-button messages). -/
def updateMouseButtonState (s : CaptureState) (msg : MouseMsg)
    (mouseData : Int) : CaptureState :=
  match msg with
  | .lDown | .lDblClk => { s with leftButtonDown := true }
  | .lUp => { s with leftButtonDown := false }
  | .rDown | .rDblClk => { s with rightButtonDown := true }
  | .rUp => { s with rightButtonDown := false }
  | .mDown | .mDblClk => { s with middleButtonDown := true }
  | .mUp => { s with middleButtonDown := false }
  | .xDown | .xUp | .xDblClk =>
    let pressed := msg = MouseMsg.xDown ∨ msg = MouseMsg.xDblClk
    let s1 := if mouseData.toNat &&& 0x1 ≠ 0 then { s with xButton1Down := pressed } else s
    if mouseData.toNat &&& 0x2 ≠ 0 then { s1 with xButton2Down := pressed } else s1
  | _ => s

/-- Embedding of `InputCaptureManager::currentMouseButtonBits`. -/
def currentMouseButtonBits (s : CaptureState) : Nat :=
  (if s.leftButtonDown then 0x01 else 0) |||
  (if s.rightButtonDown then 0x02 else 0) |||
  (if s.middleButtonDown then 0x04 else 0) |||
  (if s.xButton1Down then 0x08 else 0) |||
  (if s.xButton2Down then 0x10 else 0)

/-- Embedding of `InputCaptureManager::stopRelativeCapture` (the cursor
unhide/unclip calls have no modelled state). -/
def stopRelativeCapture (s : CaptureState) (suspend : Bool) : CaptureState :=
  let wasActive := s.relativeCaptureActive
  { s with
    relativeCaptureActive := false
    relativeCaptureSuspended := suspend
    hasLastMousePoint := if wasActive then false else s.hasLastMousePoint
    skipNextRelativeEvent := false }

/-- Embedding of `InputCaptureManager::startRelativeCapture`: in relative mode
and not already active, clamp the event point into the capture bounds, record
it as the anchor, activate capture, arm the one-shot event suppression, and
remember the anchor as the last mouse point (cursor hide/clip and the
`SetCursorPos` re-center are OS side effects). -/
def startRelativeCapture (s : CaptureState) (pt : Int × Int) : CaptureState :=
  if s.absoluteMode then s
  else
    let anchor :=
      match getCaptureBounds s with
      | some b =>
          (clampValue pt.1 b.left (b.right - 1), clampValue pt.2 b.top (b.bottom - 1))
      | none => pt
    if s.relativeCaptureActive then s
    else
      { s with
        relativeAnchorPoint := anchor
        relativeCaptureActive := true
        relativeCaptureSuspended := false
        skipNextRelativeEvent := true
        lastMousePoint := anchor
        hasLastMousePoint := true }

/-- Constant kAbsoluteMax of `sendAbsoluteMouseState`: the maximum of the
protocol's absolute coordinate range (`std::numeric_limits<short>::max()`). -/
def kAbsoluteMax : Int := 32767

/-- The integer pre-scaling of `sendAbsoluteMouseState`:
`clamped * (target - 1) / max(width - 1, 1)` in C++ `long long` arithmetic
(all operands are nonnegative here, so C++ truncating division and Lean's
integer division agree), or 0 for degenerate widths. -/
def absScale (clamped width target : Int) : Int :=
  if width > 1 then clamped * (target - 1) / max (width - 1) 1 else 0

/-- The renormalization of `sendAbsoluteMouseState`: the source computes
`normX = scaled/(target-1)` in `double` and
`clamp(lround(normX * kAbsoluteMax), 0, kAbsoluteMax)`. With `scaled` and
`target` far below 2^26, the exact rational value of
`scaled * 32767 / (target - 1)` either is exactly representable (the endpoint
and exact-half cases) or sits much farther than the double rounding error from
any half-integer boundary, so `lround` of the double equals rounding the exact
rational half-away-from-zero; for the nonnegative values arising here that is
`(2*p + q) / (2*q)` in floor division. -/
def absNormalize (scaled target : Int) : Int :=
  if target > 1 then
    clampValue ((2 * scaled * kAbsoluteMax + (target - 1)) / (2 * (target - 1)))
      0 kAbsoluteMax
  else 0

/-- Embedding of `InputCaptureManager::sendAbsoluteMouseState`: requires valid
capture bounds; uses the video viewport when valid (rejecting points outside
it), else the capture bounds; clamps the point into the rectangle, pre-scales
to the target resolution (falling back to the rectangle size when the stored
target is nonpositive), renormalizes each axis to 0..32767, and produces the
7-byte absolute report. Returns the report passed to
`publishMouseAbsoluteReport`, or `none` when the source returns false. -/
def sendAbsoluteMouseState (s : CaptureState) (pt : Int × Int) (buttons : Nat)
    (wheel pan : Int) : Option (List Nat) :=
  match getCaptureBounds s with
  | none => none
  | some bounds =>
    let vbPair : Rect × Bool :=
      match getVideoBounds s with
      | some vb => (vb, true)
      | none => (bounds, false)
    let vb := vbPair.1
    if vbPair.2 ∧ (pt.1 < vb.left ∨ pt.1 ≥ vb.right ∨ pt.2 < vb.top ∨ pt.2 ≥ vb.bottom) then
      none
    else
      let width := max (vb.right - vb.left) 1
      let height := max (vb.bottom - vb.top) 1
      let clampedX := clampValue (pt.1 - vb.left) 0 (width - 1)
      let clampedY := clampValue (pt.2 - vb.top) 0 (height - 1)
      let targetW := if s.targetWidth ≤ 0 then width else s.targetWidth
      let targetH := if s.targetHeight ≤ 0 then height else s.targetHeight
      let scaledX := absScale clampedX width targetW
      let scaledY := absScale clampedY height targetH
      let absX := absNormalize scaledX targetW
      let absY := absNormalize scaledY targetH
      some [buttons &&& 0x1F,
        (absX.toNat >>> 8) &&& 0xFF, absX.toNat &&& 0xFF,
        (absY.toNat >>> 8) &&& 0xFF, absY.toNat &&& 0xFF,
        toByte wheel, toByte pan]

/-- Output of one mouse-hook event: the new state and the relative/absolute
reports published to the streamer. -/
structure MouseOutput where
  state : CaptureState
  relReports : List (List Nat)
  absReports : List (List Nat)
deriving Repr, DecidableEq

/-- Embedding of `InputCaptureManager::handleMouseEvent`; `mouseData` is the
signed HIWORD of the raw event's data word, and `WHEEL_DELTA` is 120 (C++
division truncates toward zero, `Int.tdiv` in Lean). ln the out-of-bounds path
the last-point cache is dropped and (in relative mode) capture stops; in
absolute mode any relative capture stops, the absolute state is sent and the
last-point cache updated on success; in relative mode capture is armed on
demand, the single event following arming is suppressed, and each event emits
one 5-byte relative report with per-axis clamped deltas from the anchor
(the `SetCursorPos` re-center is an OS side effect). -/
def handleMouseEvent (s : CaptureState) (msg : MouseMsg) (pt : Int × Int)
    (mouseData : Int) (injected : Bool) : MouseOutput :=
  if injected then ⟨s, [], []⟩
  else
    let absoluteMode := s.absoluteMode
    if ¬isWithinCaptureBounds s pt then
      let s1 := { s with hasLastMousePoint := false }
      ⟨if ¬absoluteMode then stopRelativeCapture s1 false else s1, [], []⟩
    else
      let s1 := if absoluteMode then stopRelativeCapture s false else s
      let s2 :=
        if ¬absoluteMode ∧ ¬s1.relativeCaptureActive then startRelativeCapture s1 pt
        else s1
      if ¬absoluteMode ∧ ¬s2.relativeCaptureActive then
        ⟨{ s2 with hasLastMousePoint := false }, [], []⟩
      else if ¬absoluteMode ∧ s2.skipNextRelativeEvent ∧ msg = MouseMsg.move then
        ⟨{ s2 with skipNextRelativeEvent := false }, [], []⟩
      else
        let wheel := if msg = MouseMsg.wheel then clampInt8 (Int.tdiv mouseData 120) else 0
        let pan := if msg = MouseMsg.hwheel then clampInt8 (Int.tdiv mouseData 120) else 0
        let s3 := updateMouseButtonState s2 msg mouseData
        let buttons := currentMouseButtonBits s3
        if absoluteMode then
          match sendAbsoluteMouseState s3 pt buttons wheel pan with
          | some report =>
            ⟨{ s3 with lastMousePoint := pt, hasLastMousePoint := true }, [], [report]⟩
          | none => ⟨{ s3 with hasLastMousePoint := false }, [], []⟩
        else
          let anchor := s3.relativeAnchorPoint
          if ¬s3.relativeCaptureActive then ⟨s3, [], []⟩
          else
            let dx := pt.1 - anchor.1
            let dy := pt.2 - anchor.2
            ⟨s3,
              [[buttons &&& 0x1F, toByte (clampInt8 dx), toByte (clampInt8 dy),
                toByte wheel, toByte pan]],
              []⟩

/-- Output of `clearModifierState`: the new state, the keyboard reports, and
the relative/absolute mouse reports published. -/
structure ClearOutput where
  state : CaptureState
  keyboardReports : List (List Nat)
  relReports : List (List Nat)
  absReports : List (List Nat)
deriving Repr, DecidableEq

/-- Embedding of `InputCaptureManager::clearModifierState`: zero all modifier
flags, the chord latch and all button flags, publish one keyboard report from
the cleared state, and — when buttons had been held — additionally publish a
neutral absolute report (absolute mode with a cached point) or a zero relative
report (relative mode with capture active). -/
def clearModifierState (s : CaptureState) : ClearOutput :=
  let hadButtons := s.leftButtonDown || s.rightButtonDown || s.middleButtonDown ||
    s.xButton1Down || s.xButton2Down
  let s1 :=
    { s with
      leftCtrl := false, rightCtrl := false, leftShift := false, rightShift := false
      leftAlt := false, rightAlt := false, leftWin := false, rightWin := false
      menuChordLatched := false
      leftButtonDown := false, rightButtonDown := false, middleButtonDown := false
      xButton1Down := false, xButton2Down := false }
  let kreport := keyboardReport s1
  if hadButtons then
    if s1.absoluteMode ∧ s1.hasLastMousePoint then
      match sendAbsoluteMouseState s1 s1.lastMousePoint 0 0 0 with
      | some r => ⟨s1, [kreport], [], [r]⟩
      | none => ⟨s1, [kreport], [], []⟩
    else if ¬s1.absoluteMode ∧ s1.relativeCaptureActive then
      ⟨s1, [kreport], [List.replicate 5 0], []⟩
    else ⟨s1, [kreport], [], []⟩
  else ⟨s1, [kreport], [], []⟩

/-- Embedding of `InputCaptureManager::setTargetResolution`: nonpositive
dimensions are rejected (the call is a pure no-op; the source body contains no
report or frame construction), positive ones are stored. -/
def setTargetResolution (s : CaptureState) (width height : Int) : CaptureState :=
  if width ≤ 0 ∨ height ≤ 0 then s
  else { s with targetWidth := width, targetHeight := height }

/-- C10: `setTargetResolution` with a nonpositive width or height is a pure
no-op — the stored resolution keeps its previous values and no report is
produced (the source body contains no publish call) — while two positive
dimensions are stored; the initial resolution is 1920 by 1080. -/
theorem C10_set_target_resolution :
    (∀ (s : CaptureState) (w h : Int), w ≤ 0 ∨ h ≤ 0 → setTargetResolution s w h = s) ∧
    (∀ (s : CaptureState) (w h : Int), 0 < w → 0 < h →
        (setTargetResolution s w h).targetWidth = w ∧
        (setTargetResolution s w h).targetHeight = h) ∧
    initCaptureState.targetWidth = 1920 ∧ initCaptureState.targetHeight = 1080 := by
  refine ⟨?_, ?_, rfl, rfl⟩
  · intro s w h hwh
    unfold setTargetResolution
    rw [if_pos hwh]
  · intro s w h hw hh
    unfold setTargetResolution
    rw [if_neg (by omega)]
    exact ⟨rfl, rfl⟩

/-- Concrete instantiation of `C10_set_target_resolution`: a zero width is
rejected, a positive pair is stored. -/
theorem C10_set_target_resolution_witness :
    setTargetResolution initCaptureState 0 600 = initCaptureState ∧
    (setTargetResolution initCaptureState 800 600).targetWidth = 800 :=
  ⟨C10_set_target_resolution.1 initCaptureState 0 600 (Or.inl (by decide)),
    (C10_set_target_resolution.2.1 initCaptureState 800 600 (by decide) (by decide)).1⟩

/-- State for the C3 counterexample: left Ctrl, the left mouse button, and one
non-modifier key (HID usage 0x04, the letter A) are held while relative
capture is active. -/
def c3HeldState : CaptureState :=
  { initCaptureState with
    leftCtrl := true
    leftButtonDown := true
    activeKeys := [0x04]
    relativeCaptureActive := true }

/-- C3 counterexample: calling `clearModifierState` while a non-modifier key
is held emits a keyboard report that still carries the held key's usage code —
not the all-zero neutral report — and leaves the ActiveKeySet non-empty,
because the source never clears `activeKeys_` there. -/
theorem C3_counterexample :
    (clearModifierState c3HeldState).keyboardReports = [[0, 0, 4, 0, 0, 0, 0, 0]] ∧
    (clearModifierState c3HeldState).keyboardReports ≠ [List.replicate 8 0] ∧
    (clearModifierState c3HeldState).state.activeKeys ≠ [] := by
  refine ⟨by decide, by decide, by decide⟩

theorem clearModifierState_state (s : CaptureState) :
    (clearModifierState s).state =
      { s with
        leftCtrl := false, rightCtrl := false, leftShift := false, rightShift := false
        leftAlt := false, rightAlt := false, leftWin := false, rightWin := false
        menuChordLatched := false
        leftButtonDown := false, rightButtonDown := false, middleButtonDown := false
        xButton1Down := false, xButton2Down := false } := by
  unfold clearModifierState
  dsimp only
  repeat' split
  all_goals rfl

theorem clearModifierState_keyboardReports (s : CaptureState) :
    (clearModifierState s).keyboardReports =
      [0 :: 0 ::
        (if s.keyboardOverflow then List.replicate 6 0x01
         else s.activeKeys.take 6 ++ List.replicate (6 - min s.activeKeys.length 6) 0)] := by
  unfold clearModifierState
  dsimp only
  repeat' split
  all_goals simp [keyboardReport, currentModifierBits, *]

/-- C3 (amended): `clearModifierState` zeroes all modifier and mouse-button
state and the chord latch and emits exactly one keyboard report whose modifier
byte is zero, but it leaves the active key set and the overflow flag
unchanged — so the emitted report is the all-zero neutral report precisely
when no non-modifier key was held and no overflow was pending (when buttons
were held, one neutral mouse report is additionally emitted). -/
theorem C3_clear_modifier_state (s : CaptureState) :
    (clearModifierState s).state.leftCtrl = false ∧
    (clearModifierState s).state.rightCtrl = false ∧
    (clearModifierState s).state.leftShift = false ∧
    (clearModifierState s).state.rightShift = false ∧
    (clearModifierState s).state.leftAlt = false ∧
    (clearModifierState s).state.rightAlt = false ∧
    (clearModifierState s).state.leftWin = false ∧
    (clearModifierState s).state.rightWin = false ∧
    (clearModifierState s).state.menuChordLatched = false ∧
    (clearModifierState s).state.leftButtonDown = false ∧
    (clearModifierState s).state.rightButtonDown = false ∧
    (clearModifierState s).state.middleButtonDown = false ∧
    (clearModifierState s).state.xButton1Down = false ∧
    (clearModifierState s).state.xButton2Down = false ∧
    (clearModifierState s).state.activeKeys = s.activeKeys ∧
    (clearModifierState s).state.keyboardOverflow = s.keyboardOverflow ∧
    (clearModifierState s).keyboardReports.length = 1 ∧
    (clearModifierState s).keyboardReports =
      [0 :: 0 ::
        (if s.keyboardOverflow then List.replicate 6 0x01
         else s.activeKeys.take 6 ++ List.replicate (6 - min s.activeKeys.length 6) 0)] ∧
    (s.activeKeys = [] → s.keyboardOverflow = false →
      (clearModifierState s).keyboardReports = [List.replicate 8 0]) := by
  have hstate := clearModifierState_state s
  have hrep := clearModifierState_keyboardReports s
  rw [hstate, hrep]
  refine ⟨rfl, rfl, rfl, rfl, rfl, rfl, rfl, rfl, rfl, rfl, rfl, rfl, rfl, rfl,
    rfl, rfl, rfl, rfl, ?_⟩
  intro hkeys hovf
  rw [hkeys, hovf]
  rfl

/-- Concrete instantiation of `C3_clear_modifier_state`: with only modifiers
and buttons held (empty ActiveKeySet) the emitted report is the all-zero
neutral report. -/
theorem C3_clear_modifier_state_witness :
    (clearModifierState
        { initCaptureState with leftCtrl := true, leftButtonDown := true }).keyboardReports =
      [List.replicate 8 0] :=
  (C3_clear_modifier_state
      { initCaptureState with leftCtrl := true, leftButtonDown := true }).2.2.2.2.2.2.2.2.2.2.2.2.2.2.2.2.2.2
    rfl rfl

theorem setModifierFlag_preserves (s : CaptureState) (evk : Nat) (down : Bool) :
    (setModifierFlag s evk down).activeKeys = s.activeKeys ∧
    (setModifierFlag s evk down).keyboardOverflow = s.keyboardOverflow ∧
    (setModifierFlag s evk down).menuChordLatched = s.menuChordLatched ∧
    (setModifierFlag s evk down).menuChordEnabled = s.menuChordEnabled ∧
    (setModifierFlag s evk down).hasTargetWindow = s.hasTargetWindow := by
  unfold setModifierFlag
  repeat' split
  all_goals exact ⟨rfl, rfl, rfl, rfl, rfl⟩

theorem updateModifierState_preserves (s : CaptureState) (vk sc : Nat) (ext down : Bool) :
    (updateModifierState s vk sc ext down).activeKeys = s.activeKeys ∧
    (updateModifierState s vk sc ext down).keyboardOverflow = s.keyboardOverflow ∧
    (updateModifierState s vk sc ext down).menuChordLatched = s.menuChordLatched ∧
    (updateModifierState s vk sc ext down).menuChordEnabled = s.menuChordEnabled ∧
    (updateModifierState s vk sc ext down).hasTargetWindow = s.hasTargetWindow :=
  setModifierFlag_preserves s _ down

theorem updateModifierState_nonmod (s : CaptureState) (vk sc : Nat) (ext down : Bool)
    (hmod : isModifierVirtualKey vk = false) :
    updateModifierState s vk sc ext down = s := by
  simp only [isModifierVirtualKey, VK_LSHIFT, VK_RSHIFT, VK_SHIFT, VK_LCONTROL, VK_RCONTROL,
    VK_CONTROL, VK_LMENU, VK_RMENU, VK_MENU, VK_LWIN, VK_RWIN, Bool.or_eq_false_iff,
    beq_eq_false_iff_ne, ne_eq] at hmod
  unfold updateModifierState
  have hevk : resolveEffectiveVk vk sc ext = vk := by
    unfold resolveEffectiveVk
    rw [if_neg (by simp only [VK_SHIFT, VK_CONTROL, VK_MENU]; omega)]
  rw [hevk]
  unfold setModifierFlag
  simp only [VK_LCONTROL, VK_RCONTROL, VK_LSHIFT, VK_RSHIFT, VK_LMENU, VK_RMENU,
    VK_LWIN, VK_RWIN]
  split_ifs <;> first | rfl | omega

theorem processKeySlots_len (s : CaptureState) (down : Bool) (vk sc : Nat) (ext : Bool)
    (h : s.activeKeys.length ≤ 6) :
    (processKeySlots s down vk sc ext).activeKeys.length ≤ 6 := by
  unfold processKeySlots
  dsimp only
  repeat' split
  all_goals first
    | exact h
    | (simp only [List.length_append, List.length_cons, List.length_nil]; omega)
    | exact le_trans (List.erase_sublist _ _).length_le h

theorem handleKeyboardEvent_len (s : CaptureState) (down : Bool) (vk sc : Nat)
    (ext inj inb : Bool) (h : s.activeKeys.length ≤ 6) :
    (handleKeyboardEvent s down vk sc ext inj inb).state.activeKeys.length ≤ 6 := by
  have hupd := (updateModifierState_preserves s vk sc ext down).1
  unfold handleKeyboardEvent
  dsimp only
  repeat' split
  all_goals first
    | exact h
    | exact processKeySlots_len _ _ _ _ _ (by simp_all)
    | (simp_all; done)

theorem applyKeyEvents_len (evs : List KeyEvent) (s : CaptureState)
    (h : s.activeKeys.length ≤ 6) :
    (applyKeyEvents s evs).activeKeys.length ≤ 6 := by
  induction evs generalizing s with
  | nil => exact h
  | cons e rest ih => exact ih _ (handleKeyboardEvent_len _ _ _ _ _ _ _ h)

theorem handleKeyboardEvent_nonmod (s : CaptureState) (down : Bool) (vk sc : Nat)
    (ext : Bool) (hchord : s.menuChordEnabled = false)
    (hmod : isModifierVirtualKey vk = false) :
    handleKeyboardEvent s down vk sc ext false true =
      ⟨processKeySlots s down vk sc ext,
        [keyboardReport (processKeySlots s down vk sc ext)], 0⟩ := by
  unfold handleKeyboardEvent
  dsimp only
  rw [updateModifierState_nonmod s vk sc ext down hmod]
  simp [hchord]

theorem processKeySlots_press_overflow (s : CaptureState) (vk sc : Nat) (ext : Bool)
    (hmod : isModifierVirtualKey vk = false)
    (hu : translateVirtualKeyToUsage vk sc ext ≠ 0)
    (hnotin : translateVirtualKeyToUsage vk sc ext ∉ s.activeKeys)
    (hlen : s.activeKeys.length = 6) :
    processKeySlots s true vk sc ext = { s with keyboardOverflow := true } := by
  unfold processKeySlots
  dsimp only
  rw [if_pos (by simp [hmod]), if_pos hu, if_pos (rfl : (true : Bool) = true),
    if_neg hnotin, if_neg (by omega)]

theorem processKeySlots_release (s : CaptureState) (vk sc : Nat) (ext : Bool)
    (hmod : isModifierVirtualKey vk = false)
    (hu : translateVirtualKeyToUsage vk sc ext ≠ 0) :
    processKeySlots s false vk sc ext =
      { s with activeKeys := s.activeKeys.erase (translateVirtualKeyToUsage vk sc ext),
               keyboardOverflow := false } := by
  unfold processKeySlots
  dsimp only
  rw [if_pos (by simp [hmod]), if_pos hu, if_neg (by simp : ¬(false : Bool) = true)]

/-- C2: for every sequence of keyboard events from the initial state the
ActiveKeySet never holds more than six key codes; pressing a seventh distinct
non-modifier key while six are held (with chord recognition off and the cursor
in bounds) sets the overflow flag, leaves the held set unchanged, and makes
the emitted 8-byte report carry 0x01 in all six key slots (bytes 2 through 7);
any non-modifier release clears the overflow flag, removes the key, and the
emitted report again lists the individual usage codes of the held keys in
press order, zero-padded. -/
theorem C2_keyboard_overflow :
    (∀ evs : List KeyEvent,
        (applyKeyEvents initCaptureState evs).activeKeys.length ≤ 6) ∧
    (∀ (s : CaptureState) (vk sc : Nat) (ext : Bool),
        s.menuChordEnabled = false → isModifierVirtualKey vk = false →
        translateVirtualKeyToUsage vk sc ext ≠ 0 →
        translateVirtualKeyToUsage vk sc ext ∉ s.activeKeys →
        s.activeKeys.length = 6 →
        (handleKeyboardEvent s true vk sc ext false true).state.keyboardOverflow = true ∧
        (handleKeyboardEvent s true vk sc ext false true).state.activeKeys = s.activeKeys ∧
        (handleKeyboardEvent s true vk sc ext false true).reports =
          [currentModifierBits s :: 0 :: List.replicate 6 0x01]) ∧
    (∀ (s : CaptureState) (vk sc : Nat) (ext : Bool),
        s.menuChordEnabled = false → isModifierVirtualKey vk = false →
        translateVirtualKeyToUsage vk sc ext ≠ 0 →
        (handleKeyboardEvent s false vk sc ext false true).state.keyboardOverflow = false ∧
        (handleKeyboardEvent s false vk sc ext false true).state.activeKeys =
          s.activeKeys.erase (translateVirtualKeyToUsage vk sc ext) ∧
        (handleKeyboardEvent s false vk sc ext false true).reports =
          [currentModifierBits s :: 0 ::
            ((s.activeKeys.erase (translateVirtualKeyToUsage vk sc ext)).take 6 ++
              List.replicate
                (6 - min (s.activeKeys.erase (translateVirtualKeyToUsage vk sc ext)).length 6)
                0)]) := by
  refine ⟨?_, ?_, ?_⟩
  · intro evs
    exact applyKeyEvents_len evs initCaptureState (by decide)
  · intro s vk sc ext hchord hmod hu hnotin hlen
    rw [handleKeyboardEvent_nonmod s true vk sc ext hchord hmod,
      processKeySlots_press_overflow s vk sc ext hmod hu hnotin hlen]
    refine ⟨rfl, rfl, ?_⟩
    simp [keyboardReport, currentModifierBits]
  · intro s vk sc ext hchord hmod hu
    rw [handleKeyboardEvent_nonmod s false vk sc ext hchord hmod,
      processKeySlots_release s vk sc ext hmod hu]
    refine ⟨rfl, rfl, ?_⟩
    simp [keyboardReport, currentModifierBits]

/-- State for the C2 witness: six letter keys held (usages of A through F). -/
def c2SixHeldState : CaptureState :=
  { initCaptureState with activeKeys := [0x04, 0x05, 0x06, 0x07, 0x08, 0x09] }

/-- Concrete instantiation of `C2_keyboard_overflow`: the bound for a
two-event sequence; pressing the letter G as a seventh key while A through F
are held forces the rollover report; releasing the letter A afterwards
restores per-key reporting without the released key. -/
theorem C2_keyboard_overflow_witness :
    (applyKeyEvents initCaptureState
        [⟨true, 0x41, 0, false, false, true⟩,
         ⟨true, 0x42, 0, false, false, true⟩]).activeKeys.length ≤ 6 ∧
    (handleKeyboardEvent c2SixHeldState true 0x47 0 false false true).reports =
      [0 :: 0 :: List.replicate 6 0x01] ∧
    (handleKeyboardEvent c2SixHeldState false 0x41 0 false false true).reports =
      [[0, 0, 0x05, 0x06, 0x07, 0x08, 0x09, 0]] := by
  refine ⟨C2_keyboard_overflow.1 _, ?_, ?_⟩
  · have h := (C2_keyboard_overflow.2.1 c2SixHeldState 0x47 0 false rfl (by decide)
      (by decide) (by decide) (by decide)).2.2
    rw [h]
    rfl
  · have h := (C2_keyboard_overflow.2.2 c2SixHeldState 0x41 0 false rfl (by decide)
      (by decide)).2.2
    rw [h]
    rfl

/-- State for the C9 trace: chord recognition enabled and a target window
present, everything else at its initial value. -/
def chordTestState : CaptureState :=
  { initCaptureState with menuChordEnabled := true, hasTargetWindow := true }

/-- A key-down hook event for the given virtual key (not injected, cursor in
bounds). -/
def keyDownEvent (vk : Nat) : KeyEvent := ⟨true, vk, 0, false, false, true⟩

/-- A key-up hook event for the given virtual key. -/
def keyUpEvent (vk : Nat) : KeyEvent := ⟨false, vk, 0, false, false, true⟩

/-- Ctrl and Alt pressed, then the menu key pressed once followed by two OS
auto-repeats of the still-held menu key. -/
def chordRepeatTrace : List KeyEvent :=
  [keyDownEvent VK_LCONTROL, keyDownEvent VK_LMENU,
   keyDownEvent kMenuHotkeyVirtualKey, keyDownEvent kMenuHotkeyVirtualKey,
   keyDownEvent kMenuHotkeyVirtualKey]

/-- The repeat trace followed by a menu-key release and a fresh menu-key press
with both modifiers still held. -/
def chordReleaseTrace : List KeyEvent :=
  chordRepeatTrace ++ [keyUpEvent kMenuHotkeyVirtualKey, keyDownEvent kMenuHotkeyVirtualKey]

/-- C9: every emitted show-menu signal happens exactly at an Idle-to-Latched
transition (a signal implies the latch was clear before the event and set
after it); a menu-key auto-repeat while latched emits nothing; pressing the
menu key with both Ctrl and Alt held, chord recognition enabled, a target
window present and the latch clear emits exactly one signal and latches; and
on the concrete traces, Ctrl+Alt+menu with two auto-repeats yields exactly one
signal while adding a menu-key release and re-press yields a second. -/
theorem C9_chord_single_fire :
    (∀ (s : CaptureState) (down : Bool) (vk sc : Nat) (ext inj inb : Bool),
        0 < (handleKeyboardEvent s down vk sc ext inj inb).menuSignals →
        s.menuChordLatched = false ∧
        (handleKeyboardEvent s down vk sc ext inj inb).state.menuChordLatched = true) ∧
    (∀ (s : CaptureState) (sc : Nat) (ext inb : Bool),
        s.menuChordLatched = true →
        (handleKeyboardEvent s true kMenuHotkeyVirtualKey sc ext false inb).menuSignals = 0) ∧
    (∀ (s : CaptureState) (sc : Nat) (ext inb : Bool),
        s.menuChordEnabled = true → s.hasTargetWindow = true →
        s.menuChordLatched = false →
        (s.leftCtrl || s.rightCtrl) = true → (s.leftAlt || s.rightAlt) = true →
        (handleKeyboardEvent s true kMenuHotkeyVirtualKey sc ext false inb).menuSignals = 1 ∧
        (handleKeyboardEvent s true kMenuHotkeyVirtualKey sc ext false
            inb).state.menuChordLatched = true) ∧
    countMenuSignals chordTestState chordRepeatTrace = 1 ∧
    countMenuSignals chordTestState chordReleaseTrace = 2 := by
  refine ⟨?_, ?_, ?_, by decide, by decide⟩
  · intro s down vk sc ext inj inb
    have hlat := (updateModifierState_preserves s vk sc ext down).2.2.1
    unfold handleKeyboardEvent
    dsimp only
    repeat' split
    all_goals intro hpos
    all_goals first
      | (refine ⟨?_, rfl⟩; simp_all)
      | (exfalso; revert hpos; simp)
  · intro s sc ext inb hlatched
    have hlat := (updateModifierState_preserves s kMenuHotkeyVirtualKey sc ext true).2.2.1
    unfold handleKeyboardEvent
    dsimp only
    repeat' split
    all_goals first | rfl | simp_all
  · intro s sc ext inb hchord htarget hlatched hctrl halt
    have hupd := updateModifierState_nonmod s kMenuHotkeyVirtualKey sc ext true (by decide)
    unfold handleKeyboardEvent
    dsimp only
    rw [hupd]
    simp [hchord, htarget, hlatched, hctrl, halt, isMenuChordKey]

/-- Concrete instantiation of `C9_chord_single_fire`: with Ctrl and Alt held
and the latch clear, a menu-key press emits exactly one signal. -/
theorem C9_chord_single_fire_witness :
    (handleKeyboardEvent
        { chordTestState with leftCtrl := true, leftAlt := true }
        true kMenuHotkeyVirtualKey 0 false false true).menuSignals = 1 :=
  (C9_chord_single_fire.2.2.1
      { chordTestState with leftCtrl := true, leftAlt := true }
      0 false true rfl rfl rfl rfl rfl).1

/-- State for C7: relative mode with capture active, anchor (0,0), inside a
large valid capture region, no suppression pending, no target window (so the
bounds check is purely geometric, as when `targetWindow_` is null). -/
def c7CaptureState : CaptureState :=
  { initCaptureState with
    captureBoundsValid := true
    captureBounds := ⟨-100000, -100000, 100000, 100000⟩
    relativeCaptureActive := true
    relativeAnchorPoint := (0, 0) }

/-- The same state immediately after capture (re-)arming: the one-shot
suppression flag is still set. -/
def c7SkipState : CaptureState :=
  { c7CaptureState with skipNextRelativeEvent := true }

/-- C7 counterexample: in relative mode with capture active but with the
post-arm suppression flag set, an in-bounds pointer move produces no
MouseRelative report at all — so it is not the case that every pointer event
with capture active yields a clamped-delta report. -/
theorem C7_counterexample :
    c7SkipState.absoluteMode = false ∧
    c7SkipState.relativeCaptureActive = true ∧
    isWithinCaptureBounds c7SkipState (5, 7) = true ∧
    (handleMouseEvent c7SkipState .move (5, 7) 0 false).relReports = [] := by
  refine ⟨rfl, rfl, by decide, by decide⟩

theorem updateMouseButtonState_preserves (s : CaptureState) (msg : MouseMsg)
    (mouseData : Int) :
    (updateMouseButtonState s msg mouseData).relativeCaptureActive =
        s.relativeCaptureActive ∧
    (updateMouseButtonState s msg mouseData).relativeAnchorPoint =
        s.relativeAnchorPoint := by
  cases msg <;>
    · unfold updateMouseButtonState
      dsimp only
      repeat' split
      all_goals exact ⟨rfl, rfl⟩

/-- C7 (amended): in relative mode with capture active, every in-bounds,
non-injected pointer event except the single suppressed mouse-move
immediately following capture (re-)arming produces exactly one MouseRelative
report whose dx and dy bytes are the pointer's delta from the anchor clamped
per-axis into [-127, 127] (alongside the updated button bits and the clamped
wheel/pan steps); in particular a jump of (+500, -9999) from the anchor
yields dx = +127 and dy = -127 (bytes 127 and 129). -/
theorem C7_relative_clamp :
    (∀ (s : CaptureState) (msg : MouseMsg) (pt : Int × Int) (mouseData : Int),
        s.absoluteMode = false → s.relativeCaptureActive = true →
        s.skipNextRelativeEvent = false ∨ msg ≠ MouseMsg.move →
        isWithinCaptureBounds s pt = true →
        (handleMouseEvent s msg pt mouseData false).relReports =
          [[currentMouseButtonBits (updateMouseButtonState s msg mouseData) &&& 0x1F,
            toByte (clampInt8 (pt.1 - s.relativeAnchorPoint.1)),
            toByte (clampInt8 (pt.2 - s.relativeAnchorPoint.2)),
            toByte (if msg = MouseMsg.wheel then clampInt8 (Int.tdiv mouseData 120) else 0),
            toByte (if msg = MouseMsg.hwheel then clampInt8 (Int.tdiv mouseData 120) else 0)]]) ∧
    (handleMouseEvent c7CaptureState .move (500, -9999) 0 false).relReports =
      [[0, 127, 129, 0, 0]] ∧
    toByte (clampInt8 500) = toByte 127 ∧
    toByte (clampInt8 (-9999)) = toByte (-127) := by
  refine ⟨?_, by decide, by decide, by decide⟩
  intro s msg pt mouseData habs hact hskip hin
  have hpres := updateMouseButtonState_preserves s msg mouseData
  unfold handleMouseEvent
  dsimp only
  rcases hskip with h | h <;>
    simp [habs, hact, h, hin, hpres.1, hpres.2]

/-- Concrete instantiation of `C7_relative_clamp`: a small in-bounds move
from the anchor reports its exact delta. -/
theorem C7_relative_clamp_witness :
    (handleMouseEvent c7CaptureState .move (5, 7) 0 false).relReports =
      [[0, 5, 7, 0, 0]] := by
  have h := C7_relative_clamp.1 c7CaptureState .move (5, 7) 0 rfl rfl (Or.inl rfl)
    (by decide)
  rw [h]
  rfl

theorem absScale_zero (w t : Int) : absScale 0 w t = 0 := by
  unfold absScale
  split <;> simp

theorem absScale_full (w t : Int) (hw : 2 ≤ w) : absScale (w - 1) w t = t - 1 := by
  unfold absScale
  rw [if_pos (by omega), max_eq_left (by omega : (1 : Int) ≤ w - 1)]
  exact Int.mul_ediv_cancel_left _ (by omega)

theorem absScale_mid (m k : Int) (hm : 1 ≤ m) (hk : 1 ≤ k) :
    absScale m (2 * m + 1) (2 * k + 1) = k := by
  unfold absScale
  rw [if_pos (by omega)]
  have hmax : max (2 * m + 1 - 1) 1 = 2 * m := by omega
  have hnum : m * (2 * k + 1 - 1) = 2 * m * k := by ring
  rw [hmax, hnum]
  exact Int.mul_ediv_cancel_left _ (by omega)

theorem absNormalize_zero (t : Int) : absNormalize 0 t = 0 := by
  unfold absNormalize
  split
  · next h =>
    have hz : (2 * 0 * kAbsoluteMax + (t - 1)) / (2 * (t - 1)) = 0 :=
      Int.ediv_eq_zero_of_lt (by omega) (by omega)
    rw [hz]
    unfold clampValue kAbsoluteMax
    omega
  · rfl

theorem absNormalize_full (t : Int) (ht : 2 ≤ t) :
    absNormalize (t - 1) t = kAbsoluteMax := by
  unfold absNormalize
  rw [if_pos (by omega)]
  have h1 : 2 * (t - 1) * kAbsoluteMax + (t - 1) = (t - 1) + 2 * (t - 1) * kAbsoluteMax := by
    ring
  rw [h1, Int.add_mul_ediv_left _ _ (by omega : 2 * (t - 1) ≠ 0),
    Int.ediv_eq_zero_of_lt (by omega) (by omega)]
  unfold clampValue kAbsoluteMax
  omega

theorem absNormalize_mid (k : Int) (hk : 1 ≤ k) :
    absNormalize k (2 * k + 1) = 16384 := by
  unfold absNormalize
  rw [if_pos (by omega)]
  have h1 : 2 * k * kAbsoluteMax + (2 * k + 1 - 1) = 2 * (2 * k + 1 - 1) * 16384 := by
    unfold kAbsoluteMax
    ring
  rw [h1, Int.mul_ediv_cancel_left _ (by omega : 2 * (2 * k + 1 - 1) ≠ 0)]
  unfold clampValue kAbsoluteMax
  omega

/-- The complete per-axis pipeline of `sendAbsoluteMouseState` for a
coordinate in a span `[lo, hi)` mapped to a target dimension: clamp the offset
into the span, pre-scale to the target with integer division, renormalize to
the protocol range with round-to-nearest and clamping. -/
def absAxisValue (coord lo hi target : Int) : Int :=
  absNormalize
    (absScale (clampValue (coord - lo) 0 (max (hi - lo) 1 - 1)) (max (hi - lo) 1) target)
    target

theorem absAxisValue_left (lo hi t : Int) : absAxisValue lo lo hi t = 0 := by
  unfold absAxisValue
  have h0 : clampValue (lo - lo) 0 (max (hi - lo) 1 - 1) = 0 := by
    unfold clampValue
    omega
  rw [h0, absScale_zero, absNormalize_zero]

theorem absAxisValue_right (lo hi t : Int) (hw : lo + 2 ≤ hi) (ht : 2 ≤ t) :
    absAxisValue (hi - 1) lo hi t = kAbsoluteMax := by
  unfold absAxisValue
  have hmax : max (hi - lo) 1 = hi - lo := by omega
  have h0 : clampValue (hi - 1 - lo) 0 (max (hi - lo) 1 - 1) = hi - lo - 1 := by
    unfold clampValue
    omega
  rw [h0, hmax, absScale_full _ _ (by omega), absNormalize_full _ ht]

theorem absAxisValue_mid (lo hi t m k : Int) (hm : 1 ≤ m) (hk : 1 ≤ k)
    (hw : hi - lo = 2 * m + 1) (ht : t = 2 * k + 1) :
    absAxisValue (lo + m) lo hi t = 16384 := by
  unfold absAxisValue
  have hmax : max (hi - lo) 1 = 2 * m + 1 := by omega
  have h0 : clampValue (lo + m - lo) 0 (max (hi - lo) 1 - 1) = m := by
    unfold clampValue
    omega
  rw [h0, hmax, ht, absScale_mid m k hm hk, absNormalize_mid k hk]

theorem sendAbsoluteMouseState_viewport (s : CaptureState) (pt : Int × Int)
    (buttons : Nat) (wheel pan : Int)
    (hbv : s.captureBoundsValid = true) (hvv : s.videoBoundsValid = true)
    (htw : 0 < s.targetWidth) (hth : 0 < s.targetHeight)
    (hx1 : s.videoBounds.left ≤ pt.1) (hx2 : pt.1 < s.videoBounds.right)
    (hy1 : s.videoBounds.top ≤ pt.2) (hy2 : pt.2 < s.videoBounds.bottom) :
    sendAbsoluteMouseState s pt buttons wheel pan =
      some [buttons &&& 0x1F,
        ((absAxisValue pt.1 s.videoBounds.left s.videoBounds.right
            s.targetWidth).toNat >>> 8) &&& 0xFF,
        (absAxisValue pt.1 s.videoBounds.left s.videoBounds.right
            s.targetWidth).toNat &&& 0xFF,
        ((absAxisValue pt.2 s.videoBounds.top s.videoBounds.bottom
            s.targetHeight).toNat >>> 8) &&& 0xFF,
        (absAxisValue pt.2 s.videoBounds.top s.videoBounds.bottom
            s.targetHeight).toNat &&& 0xFF,
        toByte wheel, toByte pan] := by
  unfold sendAbsoluteMouseState
  simp only [getCaptureBounds, getVideoBounds, hbv, hvv, if_true]
  rw [if_neg (by
    intro hcon
    rcases hcon with ⟨-, hd⟩
    omega)]
  rw [if_neg (by omega : ¬s.targetWidth ≤ 0), if_neg (by omega : ¬s.targetHeight ≤ 0)]
  rfl

/-- State for the C8 counterexample: a valid 201-by-201 capture region with
no video viewport (so the capture bounds are the mapping rectangle) and the
default 1920-by-1080 target resolution. -/
def c8MidState : CaptureState :=
  { initCaptureState with
    captureBoundsValid := true
    captureBounds := ⟨0, 0, 201, 201⟩ }

/-- C8 counterexample: the exact mid-point (100, 100) of the 201-by-201
mapping rectangle maps to absolute coordinates (16375, 16368) under the
default 1920-by-1080 target — more than one unit of rounding away from the
16-bit mid-point (16383.5, whose one-unit neighbourhood is {16383, 16384}).
The loss comes from the integer pre-scaling to the target resolution before
renormalizing. -/
theorem C8_counterexample :
    sendAbsoluteMouseState c8MidState (100, 100) 0 0 0 =
      some [0, 63, 247, 63, 240, 0, 0] ∧
    (63 * 256 + 247 : Nat) = 16375 ∧ (63 * 256 + 240 : Nat) = 16368 ∧
    ¬(16375 = 16383 ∨ 16375 = 16384) ∧
    ¬(16368 = 16383 ∨ 16368 = 16384) := by
  refine ⟨by decide, by decide, by decide, by decide, by decide⟩

/-- C8 (amended): with a valid viewport and positive stored target
resolution, each translated point is clamped into the viewport, pre-scaled to
the target resolution with integer division, and renormalized per axis to
0..32767 with round-to-nearest and clamping (the `absAxisValue` pipeline);
the viewport's top-left maps exactly to (0, 0) and its bottom-right exactly
to the range maximum 32767; the exact mid-point maps to 16384 — the 16-bit
mid-point within one unit of rounding — when the viewport and target
dimensions are odd; with other dimensions the pre-scaling truncation can move
the mid-point by more than one unit, as the counterexample shows. -/
theorem C8_absolute_mapping :
    (∀ (s : CaptureState) (pt : Int × Int) (buttons : Nat) (wheel pan : Int),
        s.captureBoundsValid = true → s.videoBoundsValid = true →
        0 < s.targetWidth → 0 < s.targetHeight →
        s.videoBounds.left ≤ pt.1 → pt.1 < s.videoBounds.right →
        s.videoBounds.top ≤ pt.2 → pt.2 < s.videoBounds.bottom →
        sendAbsoluteMouseState s pt buttons wheel pan =
          some [buttons &&& 0x1F,
            ((absAxisValue pt.1 s.videoBounds.left s.videoBounds.right
                s.targetWidth).toNat >>> 8) &&& 0xFF,
            (absAxisValue pt.1 s.videoBounds.left s.videoBounds.right
                s.targetWidth).toNat &&& 0xFF,
            ((absAxisValue pt.2 s.videoBounds.top s.videoBounds.bottom
                s.targetHeight).toNat >>> 8) &&& 0xFF,
            (absAxisValue pt.2 s.videoBounds.top s.videoBounds.bottom
                s.targetHeight).toNat &&& 0xFF,
            toByte wheel, toByte pan]) ∧
    (∀ s : CaptureState,
        s.captureBoundsValid = true → s.videoBoundsValid = true →
        2 ≤ s.targetWidth → 2 ≤ s.targetHeight →
        s.videoBounds.left < s.videoBounds.right →
        s.videoBounds.top < s.videoBounds.bottom →
        sendAbsoluteMouseState s (s.videoBounds.left, s.videoBounds.top) 0 0 0 =
          some [0, 0, 0, 0, 0, 0, 0]) ∧
    (∀ s : CaptureState,
        s.captureBoundsValid = true → s.videoBoundsValid = true →
        2 ≤ s.targetWidth → 2 ≤ s.targetHeight →
        s.videoBounds.left + 2 ≤ s.videoBounds.right →
        s.videoBounds.top + 2 ≤ s.videoBounds.bottom →
        sendAbsoluteMouseState s (s.videoBounds.right - 1, s.videoBounds.bottom - 1) 0 0 0 =
          some [0, 127, 255, 127, 255, 0, 0]) ∧
    (∀ (s : CaptureState) (mx my kx ky : Int),
        s.captureBoundsValid = true → s.videoBoundsValid = true →
        1 ≤ mx → 1 ≤ my → 1 ≤ kx → 1 ≤ ky →
        s.videoBounds.right - s.videoBounds.left = 2 * mx + 1 →
        s.videoBounds.bottom - s.videoBounds.top = 2 * my + 1 →
        s.targetWidth = 2 * kx + 1 → s.targetHeight = 2 * ky + 1 →
        sendAbsoluteMouseState s
            (s.videoBounds.left + mx, s.videoBounds.top + my) 0 0 0 =
          some [0, 64, 0, 64, 0, 0, 0]) := by
  refine ⟨sendAbsoluteMouseState_viewport, ?_, ?_, ?_⟩
  · intro s hbv hvv htw hth hx hy
    rw [sendAbsoluteMouseState_viewport s _ 0 0 0 hbv hvv (by omega) (by omega)
      le_rfl hx le_rfl hy]
    rw [absAxisValue_left, absAxisValue_left]
    rfl
  · intro s hbv hvv htw hth hx hy
    rw [sendAbsoluteMouseState_viewport s _ 0 0 0 hbv hvv (by omega) (by omega)
      (by omega) (by omega) (by omega) (by omega)]
    rw [absAxisValue_right _ _ _ hx htw, absAxisValue_right _ _ _ hy hth]
    rfl
  · intro s mx my kx ky hbv hvv hmx hmy hkx hky hwx hwy htx hty
    rw [sendAbsoluteMouseState_viewport s _ 0 0 0 hbv hvv (by omega) (by omega)
      (by omega) (by omega) (by omega) (by omega)]
    rw [absAxisValue_mid _ _ _ mx kx hmx hkx hwx htx,
      absAxisValue_mid _ _ _ my ky hmy hky hwy hty]
    rfl

/-- Concrete instantiation of `C8_absolute_mapping`: with a 3-by-3 viewport
and a 3-by-3 target, the top-left maps to (0, 0), the bottom-right to
(32767, 32767), and the mid-point to (16384, 16384). -/
def c8OddState : CaptureState :=
  { initCaptureState with
    captureBoundsValid := true
    captureBounds := ⟨0, 0, 10, 10⟩
    videoBoundsValid := true
    videoBounds := ⟨0, 0, 3, 3⟩
    targetWidth := 3
    targetHeight := 3 }

theorem C8_absolute_mapping_witness :
    sendAbsoluteMouseState c8OddState (0, 0) 0 0 0 = some [0, 0, 0, 0, 0, 0, 0] ∧
    sendAbsoluteMouseState c8OddState (2, 2) 0 0 0 =
      some [0, 127, 255, 127, 255, 0, 0] ∧
    sendAbsoluteMouseState c8OddState (1, 1) 0 0 0 = some [0, 64, 0, 64, 0, 0, 0] :=
  ⟨C8_absolute_mapping.2.1 c8OddState rfl rfl (by decide) (by decide) (by decide)
      (by decide),
    C8_absolute_mapping.2.2.1 c8OddState rfl rfl (by decide) (by decide) (by decide)
      (by decide),
    C8_absolute_mapping.2.2.2 c8OddState 1 1 1 1 rfl rfl (by decide) (by decide)
      (by decide) (by decide) (by decide) (by decide) (by decide) (by decide)⟩

end CaptureKVM
